import Mathlib

/-!
Verification of the `riscv-h` register-view layer (RISC-V hypervisor extension
CSR accessors) against its natural-language specification.

The crate stores each register as a raw `usize` and manipulates named fields of
it through the range operations of the external `bit_field` crate.  That
bit-range primitive is not part of the crate's own sources, so it is modelled
here from the specification (§4.1): a range read returns the unsigned value of
an inclusive/half-open bit range right-shifted to bit 0, and a range write
masks the supplied value to the range width and leaves all other bits
untouched.  Every register accessor below is a direct translation of the
corresponding Rust method, field by field and bit range by bit range.

Machine words are modelled as `Nat`; all statements are proved for arbitrary
natural words, which subsumes the 64-bit `usize` instances.
-/

namespace BitPrim

/-- Modelled from the spec: the bit-vector primitive's `get_bits(range)`
(`bit_field` crate, absent from the crate sources).  Returns the unsigned
value occupying the half-open bit range `[s, e)`, right-shifted to start
at bit 0. -/
def get_bits (bits s e : Nat) : Nat :=
  (bits >>> s) % 2 ^ (e - s)

/-- Modelled from the spec: the bit-vector primitive's `set_bits(range, v)`
(`bit_field` crate, absent from the crate sources).  Writes `v` into the
half-open bit range `[s, e)`, masking `v` to the range width; bits outside
the range are left unchanged.  If `v` exceeds the range's representable
width, only the low bits that fit are written and no error is raised. -/
def set_bits (bits s e v : Nat) : Nat :=
  (bits ^^^ (bits &&& ((2 ^ (e - s) - 1) <<< s))) ||| ((v % 2 ^ (e - s)) <<< s)

/-- Modelled from the spec: the bit-vector primitive's `get_bit(i)`:
returns whether bit `i` is set. -/
def get_bit (bits i : Nat) : Bool :=
  bits.testBit i

/-- Modelled from the spec: the bit-vector primitive's `set_bit(i, v)`:
sets or clears bit `i`, leaving all other bits unchanged. -/
def set_bit (bits i : Nat) (v : Bool) : Nat :=
  if v then bits ||| (1 <<< i) else bits ^^^ (bits &&& (1 <<< i))

theorem testBit_set_bits (bits s e v i : Nat) :
    (set_bits bits s e v).testBit i =
      if s ≤ i ∧ i < e then (v % 2 ^ (e - s)).testBit (i - s) else bits.testBit i := by
  unfold set_bits
  simp only [Nat.testBit_lor, Nat.testBit_xor, Nat.testBit_land,
    Nat.testBit_shiftLeft, Nat.testBit_two_pow_sub_one, Nat.testBit_mod_two_pow,
    ge_iff_le]
  by_cases hs : s ≤ i
  · by_cases he : i < e
    · have hw : i - s < e - s := by omega
      simp [hs, he, hw]
    · have hw : ¬ i - s < e - s := by omega
      simp [hs, he, hw]
  · simp [hs]

theorem get_bits_set_bits_self (bits s e v : Nat) :
    get_bits (set_bits bits s e v) s e = v % 2 ^ (e - s) := by
  apply Nat.eq_of_testBit_eq
  intro i
  simp only [get_bits, Nat.testBit_mod_two_pow, Nat.testBit_shiftRight,
    testBit_set_bits]
  by_cases hi : i < e - s
  · have h1 : s ≤ s + i ∧ s + i < e := by omega
    have h2 : s + i - s = i := by omega
    simp [hi, h1, h2]
  · simp [hi]

theorem get_bits_set_bits_of_disjoint (bits s1 e1 s2 e2 v : Nat)
    (h : e1 ≤ s2 ∨ e2 ≤ s1) :
    get_bits (set_bits bits s2 e2 v) s1 e1 = get_bits bits s1 e1 := by
  apply Nat.eq_of_testBit_eq
  intro i
  simp only [get_bits, Nat.testBit_mod_two_pow, Nat.testBit_shiftRight,
    testBit_set_bits]
  by_cases hi : i < e1 - s1
  · have hc : ¬ (s2 ≤ s1 + i ∧ s1 + i < e2) := by omega
    simp [hc]
  · simp [hi]

theorem set_bits_comm (bits s1 e1 s2 e2 v1 v2 : Nat)
    (h : e1 ≤ s2 ∨ e2 ≤ s1) :
    set_bits (set_bits bits s2 e2 v2) s1 e1 v1
      = set_bits (set_bits bits s1 e1 v1) s2 e2 v2 := by
  apply Nat.eq_of_testBit_eq
  intro i
  simp only [testBit_set_bits]
  by_cases h1 : s1 ≤ i ∧ i < e1
  · have h2 : ¬ (s2 ≤ i ∧ i < e2) := by omega
    simp [h1, h2]
  · simp [h1]

theorem testBit_one (i : Nat) : (1 : Nat).testBit i = decide (i = 0) := by
  have h : (1 : Nat) = 2 ^ 0 := rfl
  rw [h, Nat.testBit_two_pow]
  simp [eq_comm]

theorem testBit_one_shiftLeft (j i : Nat) :
    ((1 : Nat) <<< j).testBit i = decide (i = j) := by
  simp only [Nat.testBit_shiftLeft, testBit_one, ge_iff_le]
  by_cases h : j ≤ i
  · by_cases h2 : i = j
    · simp [h, h2]
    · have h3 : ¬ i - j = 0 := by omega
      simp [h, h2, h3]
  · have h2 : ¬ i = j := by omega
    simp [h, h2]

theorem testBit_set_bit (bits j : Nat) (v : Bool) (i : Nat) :
    (set_bit bits j v).testBit i = if i = j then v else bits.testBit i := by
  unfold set_bit
  cases v with
  | true =>
      show (bits ||| 1 <<< j).testBit i = if i = j then true else bits.testBit i
      simp only [Nat.testBit_lor, testBit_one_shiftLeft]
      by_cases h : i = j <;> simp [h]
  | false =>
      show (bits ^^^ (bits &&& 1 <<< j)).testBit i
            = if i = j then false else bits.testBit i
      simp only [Nat.testBit_xor, Nat.testBit_land, testBit_one_shiftLeft]
      by_cases h : i = j <;> simp [h]

theorem get_bit_set_bit (bits j : Nat) (v : Bool) (i : Nat) :
    get_bit (set_bit bits j v) i = if i = j then v else get_bit bits i := by
  simp [get_bit, testBit_set_bit]

theorem get_bits_set_bit_of_outside (bits s1 e1 j : Nat) (v : Bool)
    (h : j < s1 ∨ e1 ≤ j) :
    get_bits (set_bit bits j v) s1 e1 = get_bits bits s1 e1 := by
  apply Nat.eq_of_testBit_eq
  intro i
  simp only [get_bits, Nat.testBit_mod_two_pow, Nat.testBit_shiftRight,
    testBit_set_bit]
  by_cases hi : i < e1 - s1
  · have hc : ¬ s1 + i = j := by omega
    simp [hc]
  · simp [hi]

theorem get_bit_set_bits_of_outside (bits s2 e2 v j : Nat)
    (h : j < s2 ∨ e2 ≤ j) :
    get_bit (set_bits bits s2 e2 v) j = get_bit bits j := by
  simp only [get_bit, testBit_set_bits]
  have hc : ¬ (s2 ≤ j ∧ j < e2) := by omega
  simp [hc]

theorem set_bit_set_bit_comm (bits i j : Nat) (v1 v2 : Bool) (h : i ≠ j) :
    set_bit (set_bit bits j v2) i v1 = set_bit (set_bit bits i v1) j v2 := by
  apply Nat.eq_of_testBit_eq
  intro k
  simp only [testBit_set_bit]
  by_cases h1 : k = i
  · have h2 : ¬ k = j := by omega
    simp [h1, h2, h]
  · simp [h1]

theorem set_bit_set_bits_comm (bits s e v2 j : Nat) (v1 : Bool)
    (h : j < s ∨ e ≤ j) :
    set_bit (set_bits bits s e v2) j v1 = set_bits (set_bit bits j v1) s e v2 := by
  apply Nat.eq_of_testBit_eq
  intro k
  simp only [testBit_set_bit, testBit_set_bits]
  have hj : ¬ (s ≤ j ∧ j < e) := by omega
  by_cases h1 : k = j
  · subst h1
    simp [hj]
  · by_cases h2 : s ≤ k ∧ k < e <;> simp [h1, h2]

end BitPrim

open BitPrim

/-! ### `src/register/hypervisorx64/hgatp.rs` -/

namespace hgatp

/-- `Hgatp` register view (`pub struct Hgatp { bits: usize }`).  The `bits`
projection is the embedding of `Hgatp::bits`, which returns `self.bits`. -/
structure Hgatp where
  bits : Nat
deriving DecidableEq, Repr

/-- `Hgatp::from_bits`: wraps raw bits, no validation. -/
def Hgatp.from_bits (x : Nat) : Hgatp :=
  { bits := x }

/-- `HgatpValues` enum with `#[repr(usize)]` discriminants 0, 8, 9. -/
inductive HgatpValues where
  | Bare
  | Sv39x4
  | Sv48x4
deriving DecidableEq, Repr

/-- The `val as usize` cast of a `HgatpValues` variant: its declared
discriminant. -/
def HgatpValues.toNat : HgatpValues → Nat
  | .Bare => 0
  | .Sv39x4 => 8
  | .Sv48x4 => 9

/-- `HgatpValues::from`: exact-match decode of a numeric code.  The
`unreachable!()` panic on any other code is modelled as `none`. -/
def HgatpValues.fromNat (x : Nat) : Option HgatpValues :=
  match x with
  | 0 => some .Bare
  | 8 => some .Sv39x4
  | 9 => some .Sv48x4
  | _ => none

/-- `Hgatp::mode`: `HgatpValues::from(self.bits.get_bits(60..64))`. -/
def Hgatp.mode (r : Hgatp) : Option HgatpValues :=
  HgatpValues.fromNat (get_bits r.bits 60 64)

/-- `Hgatp::set_mode`: `self.bits.set_bits(60..64, val as usize)`. -/
def Hgatp.set_mode (r : Hgatp) (val : HgatpValues) : Hgatp :=
  { bits := set_bits r.bits 60 64 val.toNat }

/-- `Hgatp::vmid`: `self.bits.get_bits(44..58)`. -/
def Hgatp.vmid (r : Hgatp) : Nat :=
  get_bits r.bits 44 58

/-- `Hgatp::set_vmid`: `self.bits.set_bits(44..58, val)`. -/
def Hgatp.set_vmid (r : Hgatp) (val : Nat) : Hgatp :=
  { bits := set_bits r.bits 44 58 val }

/-- `Hgatp::ppn`: `self.bits.get_bits(0..44)`. -/
def Hgatp.ppn (r : Hgatp) : Nat :=
  get_bits r.bits 0 44

/-- `Hgatp::set_ppn`: `self.bits.set_bits(0..44, val)`. -/
def Hgatp.set_ppn (r : Hgatp) (val : Nat) : Hgatp :=
  { bits := set_bits r.bits 0 44 val }

end hgatp

/-! ### `src/register/hypervisorx64/hstatus.rs` -/

namespace hstatus

/-- `Hstatus` register view (`pub struct Hstatus { bits: usize }`). -/
structure Hstatus where
  bits : Nat
deriving DecidableEq, Repr

/-- `Hstatus::from_bits`. -/
def Hstatus.from_bits (x : Nat) : Hstatus :=
  { bits := x }

/-- `VsxlValues` enum with `#[repr(usize)]` discriminants 1, 2, 3. -/
inductive VsxlValues where
  | Vsxl32
  | Vsxl64
  | Vsxl128
deriving DecidableEq, Repr

/-- The `val as usize` cast of a `VsxlValues` variant. -/
def VsxlValues.toNat : VsxlValues → Nat
  | .Vsxl32 => 1
  | .Vsxl64 => 2
  | .Vsxl128 => 3

/-- `VsxlValues::from`: exact-match decode; the `unreachable!()` panic on any
other code is modelled as `none`. -/
def VsxlValues.fromNat (x : Nat) : Option VsxlValues :=
  match x with
  | 1 => some .Vsxl32
  | 2 => some .Vsxl64
  | 3 => some .Vsxl128
  | _ => none

/-- `Hstatus::vsxl`: `VsxlValues::from(self.bits.get_bits(32..34))`. -/
def Hstatus.vsxl (r : Hstatus) : Option VsxlValues :=
  VsxlValues.fromNat (get_bits r.bits 32 34)

/-- `Hstatus::set_vsxl`: `self.bits.set_bits(32..34, val as usize)`. -/
def Hstatus.set_vsxl (r : Hstatus) (val : VsxlValues) : Hstatus :=
  { bits := set_bits r.bits 32 34 val.toNat }

/-- `Hstatus::vtsr`: `self.bits.get_bit(22)`. -/
def Hstatus.vtsr (r : Hstatus) : Bool :=
  get_bit r.bits 22

/-- `Hstatus::set_vtsr`: `self.bits.set_bit(22, val)`. -/
def Hstatus.set_vtsr (r : Hstatus) (val : Bool) : Hstatus :=
  { bits := set_bit r.bits 22 val }

/-- `Hstatus::vtw`: `self.bits.get_bit(21)`. -/
def Hstatus.vtw (r : Hstatus) : Bool :=
  get_bit r.bits 21

/-- `Hstatus::set_vtw`: `self.bits.set_bit(21, val)`. -/
def Hstatus.set_vtw (r : Hstatus) (val : Bool) : Hstatus :=
  { bits := set_bit r.bits 21 val }

/-- `Hstatus::vtvm`: `self.bits.get_bit(20)`. -/
def Hstatus.vtvm (r : Hstatus) : Bool :=
  get_bit r.bits 20

/-- `Hstatus::set_vtvm`: `self.bits.set_bit(20, val)`. -/
def Hstatus.set_vtvm (r : Hstatus) (val : Bool) : Hstatus :=
  { bits := set_bit r.bits 20 val }

/-- `Hstatus::vgein`: `self.bits.get_bits(12..18)`. -/
def Hstatus.vgein (r : Hstatus) : Nat :=
  get_bits r.bits 12 18

/-- `Hstatus::set_vgein`: `self.bits.set_bits(12..18, val)`. -/
def Hstatus.set_vgein (r : Hstatus) (val : Nat) : Hstatus :=
  { bits := set_bits r.bits 12 18 val }

/-- `Hstatus::hu`: `self.bits.get_bit(9)`. -/
def Hstatus.hu (r : Hstatus) : Bool :=
  get_bit r.bits 9

/-- `Hstatus::set_hu`: `self.bits.set_bit(9, val)`. -/
def Hstatus.set_hu (r : Hstatus) (val : Bool) : Hstatus :=
  { bits := set_bit r.bits 9 val }

/-- `Hstatus::spvp`: `self.bits.get_bit(8)`. -/
def Hstatus.spvp (r : Hstatus) : Bool :=
  get_bit r.bits 8

/-- `Hstatus::set_spvp`: `self.bits.set_bit(8, val)`. -/
def Hstatus.set_spvp (r : Hstatus) (val : Bool) : Hstatus :=
  { bits := set_bit r.bits 8 val }

/-- `Hstatus::spv`: `self.bits.get_bit(7)`. -/
def Hstatus.spv (r : Hstatus) : Bool :=
  get_bit r.bits 7

/-- `Hstatus::set_spv`: `self.bits.set_bit(7, val)`. -/
def Hstatus.set_spv (r : Hstatus) (val : Bool) : Hstatus :=
  { bits := set_bit r.bits 7 val }

/-- `Hstatus::gva`: `self.bits.get_bit(6)`. -/
def Hstatus.gva (r : Hstatus) : Bool :=
  get_bit r.bits 6

/-- `Hstatus::set_gva`: `self.bits.set_bit(6, val)`. -/
def Hstatus.set_gva (r : Hstatus) (val : Bool) : Hstatus :=
  { bits := set_bit r.bits 6 val }

/-- `Hstatus::vsbe`: `self.bits.get_bit(5)`. -/
def Hstatus.vsbe (r : Hstatus) : Bool :=
  get_bit r.bits 5

/-- `Hstatus::set_vsbe`: `self.bits.set_bit(5, val)`. -/
def Hstatus.set_vsbe (r : Hstatus) (val : Bool) : Hstatus :=
  { bits := set_bit r.bits 5 val }

end hstatus

/-! ### `src/register/hypervisorx64/hedeleg.rs` -/

namespace hedeleg

/-- `Hedeleg` register view (`pub struct Hedeleg { bits: usize }`). -/
structure Hedeleg where
  bits : Nat
deriving DecidableEq, Repr

/-- `Hedeleg::from_bits`. -/
def Hedeleg.from_bits (x : Nat) : Hedeleg :=
  { bits := x }

/-- `Hedeleg::ex0`: `self.bits.get_bit(0)`. -/
def Hedeleg.ex0 (r : Hedeleg) : Bool :=
  get_bit r.bits 0

/-- `Hedeleg::set_ex0`: `self.bits.set_bit(0, val)`. -/
def Hedeleg.set_ex0 (r : Hedeleg) (val : Bool) : Hedeleg :=
  { bits := set_bit r.bits 0 val }

/-- `Hedeleg::ex1`: `self.bits.get_bit(1)`. -/
def Hedeleg.ex1 (r : Hedeleg) : Bool :=
  get_bit r.bits 1

/-- `Hedeleg::set_ex1`: `self.bits.set_bit(1, val)`. -/
def Hedeleg.set_ex1 (r : Hedeleg) (val : Bool) : Hedeleg :=
  { bits := set_bit r.bits 1 val }

/-- `Hedeleg::ex2`: `self.bits.get_bit(2)`. -/
def Hedeleg.ex2 (r : Hedeleg) : Bool :=
  get_bit r.bits 2

/-- `Hedeleg::set_ex2`: `self.bits.set_bit(2, val)`. -/
def Hedeleg.set_ex2 (r : Hedeleg) (val : Bool) : Hedeleg :=
  { bits := set_bit r.bits 2 val }

/-- `Hedeleg::ex3`: `self.bits.get_bit(3)`. -/
def Hedeleg.ex3 (r : Hedeleg) : Bool :=
  get_bit r.bits 3

/-- `Hedeleg::set_ex3`: `self.bits.set_bit(3, val)`. -/
def Hedeleg.set_ex3 (r : Hedeleg) (val : Bool) : Hedeleg :=
  { bits := set_bit r.bits 3 val }

/-- `Hedeleg::ex4`: `self.bits.get_bit(4)`. -/
def Hedeleg.ex4 (r : Hedeleg) : Bool :=
  get_bit r.bits 4

/-- `Hedeleg::set_ex4`: `self.bits.set_bit(4, val)`. -/
def Hedeleg.set_ex4 (r : Hedeleg) (val : Bool) : Hedeleg :=
  { bits := set_bit r.bits 4 val }

/-- `Hedeleg::ex5`: `self.bits.get_bit(5)`. -/
def Hedeleg.ex5 (r : Hedeleg) : Bool :=
  get_bit r.bits 5

/-- `Hedeleg::set_ex5`: `self.bits.set_bit(5, val)`. -/
def Hedeleg.set_ex5 (r : Hedeleg) (val : Bool) : Hedeleg :=
  { bits := set_bit r.bits 5 val }

/-- `Hedeleg::ex6`: `self.bits.get_bit(6)`. -/
def Hedeleg.ex6 (r : Hedeleg) : Bool :=
  get_bit r.bits 6

/-- `Hedeleg::set_ex6`: `self.bits.set_bit(6, val)`. -/
def Hedeleg.set_ex6 (r : Hedeleg) (val : Bool) : Hedeleg :=
  { bits := set_bit r.bits 6 val }

/-- `Hedeleg::ex7`: `self.bits.get_bit(7)`. -/
def Hedeleg.ex7 (r : Hedeleg) : Bool :=
  get_bit r.bits 7

/-- `Hedeleg::set_ex7`: `self.bits.set_bit(7, val)`. -/
def Hedeleg.set_ex7 (r : Hedeleg) (val : Bool) : Hedeleg :=
  { bits := set_bit r.bits 7 val }

/-- `Hedeleg::ex8`: `self.bits.get_bit(8)`. -/
def Hedeleg.ex8 (r : Hedeleg) : Bool :=
  get_bit r.bits 8

/-- `Hedeleg::set_ex8`: `self.bits.set_bit(8, val)`. -/
def Hedeleg.set_ex8 (r : Hedeleg) (val : Bool) : Hedeleg :=
  { bits := set_bit r.bits 8 val }

/-- `Hedeleg::ex12`: `self.bits.get_bit(12)`. -/
def Hedeleg.ex12 (r : Hedeleg) : Bool :=
  get_bit r.bits 12

/-- `Hedeleg::set_ex12`: `self.bits.set_bit(12, val)`. -/
def Hedeleg.set_ex12 (r : Hedeleg) (val : Bool) : Hedeleg :=
  { bits := set_bit r.bits 12 val }

/-- `Hedeleg::ex13`: `self.bits.get_bit(13)`. -/
def Hedeleg.ex13 (r : Hedeleg) : Bool :=
  get_bit r.bits 13

/-- `Hedeleg::set_ex13`: `self.bits.set_bit(13, val)`. -/
def Hedeleg.set_ex13 (r : Hedeleg) (val : Bool) : Hedeleg :=
  { bits := set_bit r.bits 13 val }

/-- `Hedeleg::ex15`: `self.bits.get_bit(15)`. -/
def Hedeleg.ex15 (r : Hedeleg) : Bool :=
  get_bit r.bits 15

/-- `Hedeleg::set_ex15`: `self.bits.set_bit(15, val)`. -/
def Hedeleg.set_ex15 (r : Hedeleg) (val : Bool) : Hedeleg :=
  { bits := set_bit r.bits 15 val }

end hedeleg

/-! ### `src/register/hypervisorx64/vsatp.rs` -/

namespace vsatp

/-- `Vsatp` register view (`pub struct Vsatp { bits: usize }`). -/
structure Vsatp where
  bits : Nat
deriving DecidableEq, Repr

/-- `Vsatp::from_bits`. -/
def Vsatp.from_bits (x : Nat) : Vsatp :=
  { bits := x }

/-- The `HgatpValues` enum re-declared verbatim in `vsatp.rs`
(`#[repr(usize)]` discriminants 0, 8, 9). -/
inductive HgatpValues where
  | Bare
  | Sv39x4
  | Sv48x4
deriving DecidableEq, Repr

/-- The `val as usize` cast of the `vsatp.rs` copy of `HgatpValues`. -/
def HgatpValues.toNat : HgatpValues → Nat
  | .Bare => 0
  | .Sv39x4 => 8
  | .Sv48x4 => 9

/-- The `vsatp.rs` copy of `HgatpValues::from`; `unreachable!()` modelled
as `none`. -/
def HgatpValues.fromNat (x : Nat) : Option HgatpValues :=
  match x with
  | 0 => some .Bare
  | 8 => some .Sv39x4
  | 9 => some .Sv48x4
  | _ => none

/-- `Vsatp::mode`: `HgatpValues::from(self.bits.get_bits(60..64))`. -/
def Vsatp.mode (r : Vsatp) : Option HgatpValues :=
  HgatpValues.fromNat (get_bits r.bits 60 64)

/-- `Vsatp::set_mode`: `self.bits.set_bits(60..64, val as usize)`. -/
def Vsatp.set_mode (r : Vsatp) (val : HgatpValues) : Vsatp :=
  { bits := set_bits r.bits 60 64 val.toNat }

/-- `Vsatp::asid`: `self.bits.get_bits(44..60)`. -/
def Vsatp.asid (r : Vsatp) : Nat :=
  get_bits r.bits 44 60

/-- `Vsatp::set_asid`: `self.bits.set_bits(44..60, val)`. -/
def Vsatp.set_asid (r : Vsatp) (val : Nat) : Vsatp :=
  { bits := set_bits r.bits 44 60 val }

/-- `Vsatp::ppn`: `self.bits.get_bits(0..44)`. -/
def Vsatp.ppn (r : Vsatp) : Nat :=
  get_bits r.bits 0 44

/-- `Vsatp::set_ppn`: `self.bits.set_bits(0..44, val)`. -/
def Vsatp.set_ppn (r : Vsatp) (val : Nat) : Vsatp :=
  { bits := set_bits r.bits 0 44 val }

end vsatp

/-! ### `src/register/hypervisorx64/vsstatus.rs` -/

namespace vsstatus

/-- `Vsstatus` register view (`pub struct Vsstatus { bits: usize }`). -/
structure Vsstatus where
  bits : Nat
deriving DecidableEq, Repr

/-- `Vsstatus::from_bits`. -/
def Vsstatus.from_bits (x : Nat) : Vsstatus :=
  { bits := x }

/-- `UxlValues` enum with `#[repr(usize)]` discriminants 1, 2, 3. -/
inductive UxlValues where
  | Uxl32
  | Uxl64
  | Uxl128
deriving DecidableEq, Repr

/-- The `val as usize` cast of a `UxlValues` variant. -/
def UxlValues.toNat : UxlValues → Nat
  | .Uxl32 => 1
  | .Uxl64 => 2
  | .Uxl128 => 3

/-- `UxlValues::from`: exact-match decode; `unreachable!()` modelled as
`none`. -/
def UxlValues.fromNat (x : Nat) : Option UxlValues :=
  match x with
  | 1 => some .Uxl32
  | 2 => some .Uxl64
  | 3 => some .Uxl128
  | _ => none

/-- `Vsstatus::sd`: `self.bits.get_bits(60..64)`. -/
def Vsstatus.sd (r : Vsstatus) : Nat :=
  get_bits r.bits 60 64

/-- `Vsstatus::set_sd`: `self.bits.set_bits(60..64, val)`. -/
def Vsstatus.set_sd (r : Vsstatus) (val : Nat) : Vsstatus :=
  { bits := set_bits r.bits 60 64 val }

/-- `Vsstatus::uxl`: `UxlValues::from(self.bits.get_bits(32..34))`. -/
def Vsstatus.uxl (r : Vsstatus) : Option UxlValues :=
  UxlValues.fromNat (get_bits r.bits 32 34)

/-- `Vsstatus::set_uxl`: `self.bits.set_bits(32..34, val as usize)`. -/
def Vsstatus.set_uxl (r : Vsstatus) (val : UxlValues) : Vsstatus :=
  { bits := set_bits r.bits 32 34 val.toNat }

/-- `Vsstatus::mxr`: `self.bits.get_bit(19)`. -/
def Vsstatus.mxr (r : Vsstatus) : Bool :=
  get_bit r.bits 19

/-- `Vsstatus::set_mxr`: `self.bits.set_bit(19, val)`. -/
def Vsstatus.set_mxr (r : Vsstatus) (val : Bool) : Vsstatus :=
  { bits := set_bit r.bits 19 val }

/-- `Vsstatus::sum`: `self.bits.get_bit(18)`. -/
def Vsstatus.sum (r : Vsstatus) : Bool :=
  get_bit r.bits 18

/-- `Vsstatus::set_sum`: `self.bits.set_bit(18, val)`. -/
def Vsstatus.set_sum (r : Vsstatus) (val : Bool) : Vsstatus :=
  { bits := set_bit r.bits 18 val }

/-- `Vsstatus::xs`: `self.bits.get_bits(15..17)`. -/
def Vsstatus.xs (r : Vsstatus) : Nat :=
  get_bits r.bits 15 17

/-- `Vsstatus::set_xs`: `self.bits.set_bits(15..17, val)`. -/
def Vsstatus.set_xs (r : Vsstatus) (val : Nat) : Vsstatus :=
  { bits := set_bits r.bits 15 17 val }

/-- `Vsstatus::fs`: `self.bits.get_bits(13..15)`. -/
def Vsstatus.fs (r : Vsstatus) : Nat :=
  get_bits r.bits 13 15

/-- `Vsstatus::set_fs`: `self.bits.set_bits(13..15, val)`. -/
def Vsstatus.set_fs (r : Vsstatus) (val : Nat) : Vsstatus :=
  { bits := set_bits r.bits 13 15 val }

/-- `Vsstatus::spp`: `self.bits.get_bit(8)`. -/
def Vsstatus.spp (r : Vsstatus) : Bool :=
  get_bit r.bits 8

/-- `Vsstatus::set_spp`: `self.bits.set_bit(8, val)`. -/
def Vsstatus.set_spp (r : Vsstatus) (val : Bool) : Vsstatus :=
  { bits := set_bit r.bits 8 val }

/-- `Vsstatus::ube`: `self.bits.get_bit(6)`. -/
def Vsstatus.ube (r : Vsstatus) : Bool :=
  get_bit r.bits 6

/-- `Vsstatus::set_ube`: `self.bits.set_bit(6, val)`. -/
def Vsstatus.set_ube (r : Vsstatus) (val : Bool) : Vsstatus :=
  { bits := set_bit r.bits 6 val }

/-- `Vsstatus::spie`: `self.bits.get_bit(5)`. -/
def Vsstatus.spie (r : Vsstatus) : Bool :=
  get_bit r.bits 5

/-- `Vsstatus::set_spie`: `self.bits.set_bit(5, val)`. -/
def Vsstatus.set_spie (r : Vsstatus) (val : Bool) : Vsstatus :=
  { bits := set_bit r.bits 5 val }

/-- `Vsstatus::sie`: `self.bits.get_bit(1)`. -/
def Vsstatus.sie (r : Vsstatus) : Bool :=
  get_bit r.bits 1

/-- `Vsstatus::set_sie`: `self.bits.set_bit(1, val)`. -/
def Vsstatus.set_sie (r : Vsstatus) (val : Bool) : Vsstatus :=
  { bits := set_bit r.bits 1 val }

end vsstatus

namespace BitPrim

theorem get_bit_set_bit_of_ne (bits j : Nat) (v : Bool) (i : Nat) (h : i ≠ j) :
    get_bit (set_bit bits j v) i = get_bit bits i := by
  simp [get_bit_set_bit, h]

end BitPrim

/-! ### Claims -/

/-- C1: for every register view type and every machine word `w`, constructing
the view from raw bits and immediately extracting the raw bits returns exactly
`w`, with no validation or normalization applied at construction. -/
theorem C1_from_bits_bits_roundtrip (w : Nat) :
    (hgatp.Hgatp.from_bits w).bits = w ∧
    (hstatus.Hstatus.from_bits w).bits = w ∧
    (hedeleg.Hedeleg.from_bits w).bits = w ∧
    (vsatp.Vsatp.from_bits w).bits = w ∧
    (vsstatus.Vsstatus.from_bits w).bits = w :=
  ⟨rfl, rfl, rfl, rfl, rfl⟩

/-- C3: a multi-bit field setter given a value wider than the field stores the
value masked to the field width and raises no error: for every starting word
and every value `v`, reading the field back yields exactly `v` reduced modulo
`2 ^ width` (width 14 for `Hgatp::vmid`, 44 for `Hgatp::ppn` and
`Vsatp::ppn`, 6 for `Hstatus::vgein`, 16 for `Vsatp::asid`, 4 for
`Vsstatus::sd`, 2 for `Vsstatus::xs` and `Vsstatus::fs`). -/
theorem C3_multibit_setter_masks_low_bits (w v : Nat) :
    ((hgatp.Hgatp.from_bits w).set_vmid v).vmid = v % 2 ^ 14 ∧
    ((hgatp.Hgatp.from_bits w).set_ppn v).ppn = v % 2 ^ 44 ∧
    ((hstatus.Hstatus.from_bits w).set_vgein v).vgein = v % 2 ^ 6 ∧
    ((vsatp.Vsatp.from_bits w).set_asid v).asid = v % 2 ^ 16 ∧
    ((vsatp.Vsatp.from_bits w).set_ppn v).ppn = v % 2 ^ 44 ∧
    ((vsstatus.Vsstatus.from_bits w).set_sd v).sd = v % 2 ^ 4 ∧
    ((vsstatus.Vsstatus.from_bits w).set_xs v).xs = v % 2 ^ 2 ∧
    ((vsstatus.Vsstatus.from_bits w).set_fs v).fs = v % 2 ^ 2 :=
  ⟨get_bits_set_bits_self w 44 58 v, get_bits_set_bits_self w 0 44 v,
   get_bits_set_bits_self w 12 18 v, get_bits_set_bits_self w 44 60 v,
   get_bits_set_bits_self w 0 44 v, get_bits_set_bits_self w 60 64 v,
   get_bits_set_bits_self w 15 17 v, get_bits_set_bits_self w 13 15 v⟩

/-- C4: starting from a zero `Hgatp` view, setting mode `Sv48x4` (code 9),
vmid `0x2A3F` and ppn `0x123456789AB` yields raw bits
`(9 <<< 60) ||| (0x2A3F <<< 44) ||| 0x123456789AB`: mode occupies bits 60-63,
the 14-bit vmid bits 44-57, the 44-bit ppn bits 0-43. -/
theorem C4_hgatp_bit_exact_encoding :
    ((((hgatp.Hgatp.from_bits 0).set_mode .Sv48x4).set_vmid 0x2A3F).set_ppn
        0x123456789AB).bits
      = (9 <<< 60) ||| (0x2A3F <<< 44) ||| 0x123456789AB := by
  decide

/-- C5: every legal numeric code of each of the three enumerations decodes to
exactly one variant and re-encoding that variant (its `as usize` cast)
reproduces the original code: codes 0, 8, 9 for `HgatpValues` and codes
1, 2, 3 for `VsxlValues` and `UxlValues`. -/
theorem C5_enum_decode_encode_roundtrip :
    (hgatp.HgatpValues.fromNat 0 = some .Bare
        ∧ hgatp.HgatpValues.toNat .Bare = 0) ∧
    (hgatp.HgatpValues.fromNat 8 = some .Sv39x4
        ∧ hgatp.HgatpValues.toNat .Sv39x4 = 8) ∧
    (hgatp.HgatpValues.fromNat 9 = some .Sv48x4
        ∧ hgatp.HgatpValues.toNat .Sv48x4 = 9) ∧
    (hstatus.VsxlValues.fromNat 1 = some .Vsxl32
        ∧ hstatus.VsxlValues.toNat .Vsxl32 = 1) ∧
    (hstatus.VsxlValues.fromNat 2 = some .Vsxl64
        ∧ hstatus.VsxlValues.toNat .Vsxl64 = 2) ∧
    (hstatus.VsxlValues.fromNat 3 = some .Vsxl128
        ∧ hstatus.VsxlValues.toNat .Vsxl128 = 3) ∧
    (vsstatus.UxlValues.fromNat 1 = some .Uxl32
        ∧ vsstatus.UxlValues.toNat .Uxl32 = 1) ∧
    (vsstatus.UxlValues.fromNat 2 = some .Uxl64
        ∧ vsstatus.UxlValues.toNat .Uxl64 = 2) ∧
    (vsstatus.UxlValues.fromNat 3 = some .Uxl128
        ∧ vsstatus.UxlValues.toNat .Uxl128 = 3) := by
  decide

/-- C6: decoding an enumerated field whose bits hold a code outside the legal
set hits the `unreachable!()` panic (modelled as `none`): no default variant
is substituted and no legal variant is returned.  In particular
`Hgatp::mode` on bits with code 7 in bits 60-63, and `Hstatus::vsxl` on bits
with code 0 in bits 32-33, fault at the point of decode. -/
theorem C6_illegal_enum_code_faults :
    (∀ x : Nat, x ≠ 0 → x ≠ 8 → x ≠ 9 → hgatp.HgatpValues.fromNat x = none) ∧
    (∀ x : Nat, x ≠ 0 → x ≠ 8 → x ≠ 9 → vsatp.HgatpValues.fromNat x = none) ∧
    (∀ x : Nat, x ≠ 1 → x ≠ 2 → x ≠ 3 → hstatus.VsxlValues.fromNat x = none) ∧
    (∀ x : Nat, x ≠ 1 → x ≠ 2 → x ≠ 3 → vsstatus.UxlValues.fromNat x = none) ∧
    (hgatp.Hgatp.from_bits (7 <<< 60)).mode = none ∧
    (hstatus.Hstatus.from_bits 0).vsxl = none := by
  refine ⟨?_, ?_, ?_, ?_, by decide, by decide⟩
  · intro x h0 h8 h9
    unfold hgatp.HgatpValues.fromNat
    split <;> simp_all
  · intro x h0 h8 h9
    unfold vsatp.HgatpValues.fromNat
    split <;> simp_all
  · intro x h1 h2 h3
    unfold hstatus.VsxlValues.fromNat
    split <;> simp_all
  · intro x h1 h2 h3
    unfold vsstatus.UxlValues.fromNat
    split <;> simp_all

/-- C6 witness: the theorem applied at the concrete illegal codes 7 (for the
translation-mode enumeration) and 0 (for the address-width enumeration). -/
theorem C6_illegal_enum_code_faults_witness :
    hgatp.HgatpValues.fromNat 7 = none ∧ hstatus.VsxlValues.fromNat 0 = none :=
  ⟨C6_illegal_enum_code_faults.1 7 (by decide) (by decide) (by decide),
   C6_illegal_enum_code_faults.2.2.1 0 (by decide) (by decide) (by decide)⟩

/-- C7: for every starting word, each multi-bit non-enumerated field stores
and reads back its minimum (0) and maximum (all-ones of the field width)
values exactly, with no truncation or sign artifacts. -/
theorem C7_boundary_values_roundtrip (w : Nat) :
    ((hgatp.Hgatp.from_bits w).set_vmid 0).vmid = 0 ∧
    ((hgatp.Hgatp.from_bits w).set_vmid 0x3FFF).vmid = 0x3FFF ∧
    ((hgatp.Hgatp.from_bits w).set_ppn 0).ppn = 0 ∧
    ((hgatp.Hgatp.from_bits w).set_ppn 0xFFFFFFFFFFF).ppn = 0xFFFFFFFFFFF ∧
    ((hstatus.Hstatus.from_bits w).set_vgein 0).vgein = 0 ∧
    ((hstatus.Hstatus.from_bits w).set_vgein 0x3F).vgein = 0x3F ∧
    ((vsatp.Vsatp.from_bits w).set_asid 0).asid = 0 ∧
    ((vsatp.Vsatp.from_bits w).set_asid 0xFFFF).asid = 0xFFFF ∧
    ((vsatp.Vsatp.from_bits w).set_ppn 0xFFFFFFFFFFF).ppn = 0xFFFFFFFFFFF ∧
    ((vsstatus.Vsstatus.from_bits w).set_sd 0xF).sd = 0xF ∧
    ((vsstatus.Vsstatus.from_bits w).set_xs 3).xs = 3 ∧
    ((vsstatus.Vsstatus.from_bits w).set_fs 3).fs = 3 :=
  ⟨(get_bits_set_bits_self w 44 58 0).trans (by decide),
   (get_bits_set_bits_self w 44 58 0x3FFF).trans (by decide),
   (get_bits_set_bits_self w 0 44 0).trans (by decide),
   (get_bits_set_bits_self w 0 44 0xFFFFFFFFFFF).trans (by decide),
   (get_bits_set_bits_self w 12 18 0).trans (by decide),
   (get_bits_set_bits_self w 12 18 0x3F).trans (by decide),
   (get_bits_set_bits_self w 44 60 0).trans (by decide),
   (get_bits_set_bits_self w 44 60 0xFFFF).trans (by decide),
   (get_bits_set_bits_self w 0 44 0xFFFFFFFFFFF).trans (by decide),
   (get_bits_set_bits_self w 60 64 0xF).trans (by decide),
   (get_bits_set_bits_self w 15 17 3).trans (by decide),
   (get_bits_set_bits_self w 13 15 3).trans (by decide)⟩

/-- C8: each in-memory `Hedeleg` setter changes exactly its own defined bit
(positions 0-8, 12, 13, 15) and leaves every other bit position of the raw
value — including the reserved positions 9, 10, 11, 14 and all positions
above 15 — unchanged:  bit `j` of the result equals the written value when
`j` is the setter's own bit and the original bit otherwise. -/
theorem C8_hedeleg_setters_single_bit (w : Nat) (v : Bool) (j : Nat) :
    (((hedeleg.Hedeleg.from_bits w).set_ex0 v).bits.testBit j
        = if j = 0 then v else w.testBit j) ∧
    (((hedeleg.Hedeleg.from_bits w).set_ex1 v).bits.testBit j
        = if j = 1 then v else w.testBit j) ∧
    (((hedeleg.Hedeleg.from_bits w).set_ex2 v).bits.testBit j
        = if j = 2 then v else w.testBit j) ∧
    (((hedeleg.Hedeleg.from_bits w).set_ex3 v).bits.testBit j
        = if j = 3 then v else w.testBit j) ∧
    (((hedeleg.Hedeleg.from_bits w).set_ex4 v).bits.testBit j
        = if j = 4 then v else w.testBit j) ∧
    (((hedeleg.Hedeleg.from_bits w).set_ex5 v).bits.testBit j
        = if j = 5 then v else w.testBit j) ∧
    (((hedeleg.Hedeleg.from_bits w).set_ex6 v).bits.testBit j
        = if j = 6 then v else w.testBit j) ∧
    (((hedeleg.Hedeleg.from_bits w).set_ex7 v).bits.testBit j
        = if j = 7 then v else w.testBit j) ∧
    (((hedeleg.Hedeleg.from_bits w).set_ex8 v).bits.testBit j
        = if j = 8 then v else w.testBit j) ∧
    (((hedeleg.Hedeleg.from_bits w).set_ex12 v).bits.testBit j
        = if j = 12 then v else w.testBit j) ∧
    (((hedeleg.Hedeleg.from_bits w).set_ex13 v).bits.testBit j
        = if j = 13 then v else w.testBit j) ∧
    (((hedeleg.Hedeleg.from_bits w).set_ex15 v).bits.testBit j
        = if j = 15 then v else w.testBit j) :=
  ⟨testBit_set_bit w 0 v j, testBit_set_bit w 1 v j, testBit_set_bit w 2 v j,
   testBit_set_bit w 3 v j, testBit_set_bit w 4 v j, testBit_set_bit w 5 v j,
   testBit_set_bit w 6 v j, testBit_set_bit w 7 v j, testBit_set_bit w 8 v j,
   testBit_set_bit w 12 v j, testBit_set_bit w 13 v j, testBit_set_bit w 15 v j⟩

/-- Variant-for-variant correspondence between the two independently declared
copies of the `HgatpValues` enum (one in `hgatp.rs`, one in `vsatp.rs`). -/
def hgatpToVsatpValue : hgatp.HgatpValues → vsatp.HgatpValues
  | .Bare => .Bare
  | .Sv39x4 => .Sv39x4
  | .Sv48x4 => .Sv48x4

/-- The two duplicated decoders map every numeric code to variants with the
same numeric code (both are exactly the table 0, 8, 9, panic otherwise). -/
theorem fromNat_code_agree (x : Nat) :
    (hgatp.HgatpValues.fromNat x).map hgatp.HgatpValues.toNat
      = (vsatp.HgatpValues.fromNat x).map vsatp.HgatpValues.toNat := by
  unfold hgatp.HgatpValues.fromNat vsatp.HgatpValues.fromNat
  split <;> rfl

/-- C10: the translation-mode decoders duplicated in the `hgatp` and `vsatp`
modules are extensionally equal: `Hgatp::mode` and `Vsatp::mode` both read
bit range 60-63, map it through identical code tables (0 → Bare,
8 → Sv39x4, 9 → Sv48x4), and the two `HgatpValues` enumerations decode and
encode identically (up to the variant-for-variant correspondence). -/
theorem C10_hgatp_vsatp_decoders_agree (x w : Nat) :
    ((hgatp.HgatpValues.fromNat x).map hgatp.HgatpValues.toNat
        = (vsatp.HgatpValues.fromNat x).map vsatp.HgatpValues.toNat) ∧
    ((hgatp.Hgatp.from_bits w).mode
        = hgatp.HgatpValues.fromNat (BitPrim.get_bits w 60 64)) ∧
    ((vsatp.Vsatp.from_bits w).mode
        = vsatp.HgatpValues.fromNat (BitPrim.get_bits w 60 64)) ∧
    (((hgatp.Hgatp.from_bits w).mode).map hgatp.HgatpValues.toNat
        = ((vsatp.Vsatp.from_bits w).mode).map vsatp.HgatpValues.toNat) ∧
    (∀ v : hgatp.HgatpValues,
        (hgatpToVsatpValue v).toNat = v.toNat) ∧
    (∀ v : hgatp.HgatpValues,
        vsatp.HgatpValues.fromNat v.toNat = some (hgatpToVsatpValue v)) :=
  ⟨fromNat_code_agree x, rfl, rfl, fromNat_code_agree (BitPrim.get_bits w 60 64),
   fun v => by cases v <;> rfl, fun v => by cases v <;> rfl⟩

set_option maxRecDepth 8192

/-- C2: for every register view, every ordered pair of distinct named fields
A and B, every starting raw value and every value for A, calling the setter
for A leaves the decoded value of field B unchanged.  Stated for every field
pair of the Hgatp, Hstatus, Hedeleg, Vsatp and Vsstatus views, for arbitrary
(hence in particular all legal) field values. -/
theorem C2_field_isolation (g : hgatp.Hgatp) (s : hstatus.Hstatus) (d : hedeleg.Hedeleg)
    (vp : vsatp.Vsatp) (vs : vsstatus.Vsstatus)
    (x : Nat) (b : Bool)
    (m : hgatp.HgatpValues) (vm : vsatp.HgatpValues)
    (vx : hstatus.VsxlValues) (u : vsstatus.UxlValues) :
    ((g.set_mode m).vmid = g.vmid) ∧
    ((g.set_mode m).ppn = g.ppn) ∧
    ((g.set_vmid x).mode = g.mode) ∧
    ((g.set_vmid x).ppn = g.ppn) ∧
    ((g.set_ppn x).mode = g.mode) ∧
    ((g.set_ppn x).vmid = g.vmid) ∧
    ((s.set_vsxl vx).vtsr = s.vtsr) ∧
    ((s.set_vsxl vx).vtw = s.vtw) ∧
    ((s.set_vsxl vx).vtvm = s.vtvm) ∧
    ((s.set_vsxl vx).vgein = s.vgein) ∧
    ((s.set_vsxl vx).hu = s.hu) ∧
    ((s.set_vsxl vx).spvp = s.spvp) ∧
    ((s.set_vsxl vx).spv = s.spv) ∧
    ((s.set_vsxl vx).gva = s.gva) ∧
    ((s.set_vsxl vx).vsbe = s.vsbe) ∧
    ((s.set_vtsr b).vsxl = s.vsxl) ∧
    ((s.set_vtsr b).vtw = s.vtw) ∧
    ((s.set_vtsr b).vtvm = s.vtvm) ∧
    ((s.set_vtsr b).vgein = s.vgein) ∧
    ((s.set_vtsr b).hu = s.hu) ∧
    ((s.set_vtsr b).spvp = s.spvp) ∧
    ((s.set_vtsr b).spv = s.spv) ∧
    ((s.set_vtsr b).gva = s.gva) ∧
    ((s.set_vtsr b).vsbe = s.vsbe) ∧
    ((s.set_vtw b).vsxl = s.vsxl) ∧
    ((s.set_vtw b).vtsr = s.vtsr) ∧
    ((s.set_vtw b).vtvm = s.vtvm) ∧
    ((s.set_vtw b).vgein = s.vgein) ∧
    ((s.set_vtw b).hu = s.hu) ∧
    ((s.set_vtw b).spvp = s.spvp) ∧
    ((s.set_vtw b).spv = s.spv) ∧
    ((s.set_vtw b).gva = s.gva) ∧
    ((s.set_vtw b).vsbe = s.vsbe) ∧
    ((s.set_vtvm b).vsxl = s.vsxl) ∧
    ((s.set_vtvm b).vtsr = s.vtsr) ∧
    ((s.set_vtvm b).vtw = s.vtw) ∧
    ((s.set_vtvm b).vgein = s.vgein) ∧
    ((s.set_vtvm b).hu = s.hu) ∧
    ((s.set_vtvm b).spvp = s.spvp) ∧
    ((s.set_vtvm b).spv = s.spv) ∧
    ((s.set_vtvm b).gva = s.gva) ∧
    ((s.set_vtvm b).vsbe = s.vsbe) ∧
    ((s.set_vgein x).vsxl = s.vsxl) ∧
    ((s.set_vgein x).vtsr = s.vtsr) ∧
    ((s.set_vgein x).vtw = s.vtw) ∧
    ((s.set_vgein x).vtvm = s.vtvm) ∧
    ((s.set_vgein x).hu = s.hu) ∧
    ((s.set_vgein x).spvp = s.spvp) ∧
    ((s.set_vgein x).spv = s.spv) ∧
    ((s.set_vgein x).gva = s.gva) ∧
    ((s.set_vgein x).vsbe = s.vsbe) ∧
    ((s.set_hu b).vsxl = s.vsxl) ∧
    ((s.set_hu b).vtsr = s.vtsr) ∧
    ((s.set_hu b).vtw = s.vtw) ∧
    ((s.set_hu b).vtvm = s.vtvm) ∧
    ((s.set_hu b).vgein = s.vgein) ∧
    ((s.set_hu b).spvp = s.spvp) ∧
    ((s.set_hu b).spv = s.spv) ∧
    ((s.set_hu b).gva = s.gva) ∧
    ((s.set_hu b).vsbe = s.vsbe) ∧
    ((s.set_spvp b).vsxl = s.vsxl) ∧
    ((s.set_spvp b).vtsr = s.vtsr) ∧
    ((s.set_spvp b).vtw = s.vtw) ∧
    ((s.set_spvp b).vtvm = s.vtvm) ∧
    ((s.set_spvp b).vgein = s.vgein) ∧
    ((s.set_spvp b).hu = s.hu) ∧
    ((s.set_spvp b).spv = s.spv) ∧
    ((s.set_spvp b).gva = s.gva) ∧
    ((s.set_spvp b).vsbe = s.vsbe) ∧
    ((s.set_spv b).vsxl = s.vsxl) ∧
    ((s.set_spv b).vtsr = s.vtsr) ∧
    ((s.set_spv b).vtw = s.vtw) ∧
    ((s.set_spv b).vtvm = s.vtvm) ∧
    ((s.set_spv b).vgein = s.vgein) ∧
    ((s.set_spv b).hu = s.hu) ∧
    ((s.set_spv b).spvp = s.spvp) ∧
    ((s.set_spv b).gva = s.gva) ∧
    ((s.set_spv b).vsbe = s.vsbe) ∧
    ((s.set_gva b).vsxl = s.vsxl) ∧
    ((s.set_gva b).vtsr = s.vtsr) ∧
    ((s.set_gva b).vtw = s.vtw) ∧
    ((s.set_gva b).vtvm = s.vtvm) ∧
    ((s.set_gva b).vgein = s.vgein) ∧
    ((s.set_gva b).hu = s.hu) ∧
    ((s.set_gva b).spvp = s.spvp) ∧
    ((s.set_gva b).spv = s.spv) ∧
    ((s.set_gva b).vsbe = s.vsbe) ∧
    ((s.set_vsbe b).vsxl = s.vsxl) ∧
    ((s.set_vsbe b).vtsr = s.vtsr) ∧
    ((s.set_vsbe b).vtw = s.vtw) ∧
    ((s.set_vsbe b).vtvm = s.vtvm) ∧
    ((s.set_vsbe b).vgein = s.vgein) ∧
    ((s.set_vsbe b).hu = s.hu) ∧
    ((s.set_vsbe b).spvp = s.spvp) ∧
    ((s.set_vsbe b).spv = s.spv) ∧
    ((s.set_vsbe b).gva = s.gva) ∧
    ((d.set_ex0 b).ex1 = d.ex1) ∧
    ((d.set_ex0 b).ex2 = d.ex2) ∧
    ((d.set_ex0 b).ex3 = d.ex3) ∧
    ((d.set_ex0 b).ex4 = d.ex4) ∧
    ((d.set_ex0 b).ex5 = d.ex5) ∧
    ((d.set_ex0 b).ex6 = d.ex6) ∧
    ((d.set_ex0 b).ex7 = d.ex7) ∧
    ((d.set_ex0 b).ex8 = d.ex8) ∧
    ((d.set_ex0 b).ex12 = d.ex12) ∧
    ((d.set_ex0 b).ex13 = d.ex13) ∧
    ((d.set_ex0 b).ex15 = d.ex15) ∧
    ((d.set_ex1 b).ex0 = d.ex0) ∧
    ((d.set_ex1 b).ex2 = d.ex2) ∧
    ((d.set_ex1 b).ex3 = d.ex3) ∧
    ((d.set_ex1 b).ex4 = d.ex4) ∧
    ((d.set_ex1 b).ex5 = d.ex5) ∧
    ((d.set_ex1 b).ex6 = d.ex6) ∧
    ((d.set_ex1 b).ex7 = d.ex7) ∧
    ((d.set_ex1 b).ex8 = d.ex8) ∧
    ((d.set_ex1 b).ex12 = d.ex12) ∧
    ((d.set_ex1 b).ex13 = d.ex13) ∧
    ((d.set_ex1 b).ex15 = d.ex15) ∧
    ((d.set_ex2 b).ex0 = d.ex0) ∧
    ((d.set_ex2 b).ex1 = d.ex1) ∧
    ((d.set_ex2 b).ex3 = d.ex3) ∧
    ((d.set_ex2 b).ex4 = d.ex4) ∧
    ((d.set_ex2 b).ex5 = d.ex5) ∧
    ((d.set_ex2 b).ex6 = d.ex6) ∧
    ((d.set_ex2 b).ex7 = d.ex7) ∧
    ((d.set_ex2 b).ex8 = d.ex8) ∧
    ((d.set_ex2 b).ex12 = d.ex12) ∧
    ((d.set_ex2 b).ex13 = d.ex13) ∧
    ((d.set_ex2 b).ex15 = d.ex15) ∧
    ((d.set_ex3 b).ex0 = d.ex0) ∧
    ((d.set_ex3 b).ex1 = d.ex1) ∧
    ((d.set_ex3 b).ex2 = d.ex2) ∧
    ((d.set_ex3 b).ex4 = d.ex4) ∧
    ((d.set_ex3 b).ex5 = d.ex5) ∧
    ((d.set_ex3 b).ex6 = d.ex6) ∧
    ((d.set_ex3 b).ex7 = d.ex7) ∧
    ((d.set_ex3 b).ex8 = d.ex8) ∧
    ((d.set_ex3 b).ex12 = d.ex12) ∧
    ((d.set_ex3 b).ex13 = d.ex13) ∧
    ((d.set_ex3 b).ex15 = d.ex15) ∧
    ((d.set_ex4 b).ex0 = d.ex0) ∧
    ((d.set_ex4 b).ex1 = d.ex1) ∧
    ((d.set_ex4 b).ex2 = d.ex2) ∧
    ((d.set_ex4 b).ex3 = d.ex3) ∧
    ((d.set_ex4 b).ex5 = d.ex5) ∧
    ((d.set_ex4 b).ex6 = d.ex6) ∧
    ((d.set_ex4 b).ex7 = d.ex7) ∧
    ((d.set_ex4 b).ex8 = d.ex8) ∧
    ((d.set_ex4 b).ex12 = d.ex12) ∧
    ((d.set_ex4 b).ex13 = d.ex13) ∧
    ((d.set_ex4 b).ex15 = d.ex15) ∧
    ((d.set_ex5 b).ex0 = d.ex0) ∧
    ((d.set_ex5 b).ex1 = d.ex1) ∧
    ((d.set_ex5 b).ex2 = d.ex2) ∧
    ((d.set_ex5 b).ex3 = d.ex3) ∧
    ((d.set_ex5 b).ex4 = d.ex4) ∧
    ((d.set_ex5 b).ex6 = d.ex6) ∧
    ((d.set_ex5 b).ex7 = d.ex7) ∧
    ((d.set_ex5 b).ex8 = d.ex8) ∧
    ((d.set_ex5 b).ex12 = d.ex12) ∧
    ((d.set_ex5 b).ex13 = d.ex13) ∧
    ((d.set_ex5 b).ex15 = d.ex15) ∧
    ((d.set_ex6 b).ex0 = d.ex0) ∧
    ((d.set_ex6 b).ex1 = d.ex1) ∧
    ((d.set_ex6 b).ex2 = d.ex2) ∧
    ((d.set_ex6 b).ex3 = d.ex3) ∧
    ((d.set_ex6 b).ex4 = d.ex4) ∧
    ((d.set_ex6 b).ex5 = d.ex5) ∧
    ((d.set_ex6 b).ex7 = d.ex7) ∧
    ((d.set_ex6 b).ex8 = d.ex8) ∧
    ((d.set_ex6 b).ex12 = d.ex12) ∧
    ((d.set_ex6 b).ex13 = d.ex13) ∧
    ((d.set_ex6 b).ex15 = d.ex15) ∧
    ((d.set_ex7 b).ex0 = d.ex0) ∧
    ((d.set_ex7 b).ex1 = d.ex1) ∧
    ((d.set_ex7 b).ex2 = d.ex2) ∧
    ((d.set_ex7 b).ex3 = d.ex3) ∧
    ((d.set_ex7 b).ex4 = d.ex4) ∧
    ((d.set_ex7 b).ex5 = d.ex5) ∧
    ((d.set_ex7 b).ex6 = d.ex6) ∧
    ((d.set_ex7 b).ex8 = d.ex8) ∧
    ((d.set_ex7 b).ex12 = d.ex12) ∧
    ((d.set_ex7 b).ex13 = d.ex13) ∧
    ((d.set_ex7 b).ex15 = d.ex15) ∧
    ((d.set_ex8 b).ex0 = d.ex0) ∧
    ((d.set_ex8 b).ex1 = d.ex1) ∧
    ((d.set_ex8 b).ex2 = d.ex2) ∧
    ((d.set_ex8 b).ex3 = d.ex3) ∧
    ((d.set_ex8 b).ex4 = d.ex4) ∧
    ((d.set_ex8 b).ex5 = d.ex5) ∧
    ((d.set_ex8 b).ex6 = d.ex6) ∧
    ((d.set_ex8 b).ex7 = d.ex7) ∧
    ((d.set_ex8 b).ex12 = d.ex12) ∧
    ((d.set_ex8 b).ex13 = d.ex13) ∧
    ((d.set_ex8 b).ex15 = d.ex15) ∧
    ((d.set_ex12 b).ex0 = d.ex0) ∧
    ((d.set_ex12 b).ex1 = d.ex1) ∧
    ((d.set_ex12 b).ex2 = d.ex2) ∧
    ((d.set_ex12 b).ex3 = d.ex3) ∧
    ((d.set_ex12 b).ex4 = d.ex4) ∧
    ((d.set_ex12 b).ex5 = d.ex5) ∧
    ((d.set_ex12 b).ex6 = d.ex6) ∧
    ((d.set_ex12 b).ex7 = d.ex7) ∧
    ((d.set_ex12 b).ex8 = d.ex8) ∧
    ((d.set_ex12 b).ex13 = d.ex13) ∧
    ((d.set_ex12 b).ex15 = d.ex15) ∧
    ((d.set_ex13 b).ex0 = d.ex0) ∧
    ((d.set_ex13 b).ex1 = d.ex1) ∧
    ((d.set_ex13 b).ex2 = d.ex2) ∧
    ((d.set_ex13 b).ex3 = d.ex3) ∧
    ((d.set_ex13 b).ex4 = d.ex4) ∧
    ((d.set_ex13 b).ex5 = d.ex5) ∧
    ((d.set_ex13 b).ex6 = d.ex6) ∧
    ((d.set_ex13 b).ex7 = d.ex7) ∧
    ((d.set_ex13 b).ex8 = d.ex8) ∧
    ((d.set_ex13 b).ex12 = d.ex12) ∧
    ((d.set_ex13 b).ex15 = d.ex15) ∧
    ((d.set_ex15 b).ex0 = d.ex0) ∧
    ((d.set_ex15 b).ex1 = d.ex1) ∧
    ((d.set_ex15 b).ex2 = d.ex2) ∧
    ((d.set_ex15 b).ex3 = d.ex3) ∧
    ((d.set_ex15 b).ex4 = d.ex4) ∧
    ((d.set_ex15 b).ex5 = d.ex5) ∧
    ((d.set_ex15 b).ex6 = d.ex6) ∧
    ((d.set_ex15 b).ex7 = d.ex7) ∧
    ((d.set_ex15 b).ex8 = d.ex8) ∧
    ((d.set_ex15 b).ex12 = d.ex12) ∧
    ((d.set_ex15 b).ex13 = d.ex13) ∧
    ((vp.set_mode vm).asid = vp.asid) ∧
    ((vp.set_mode vm).ppn = vp.ppn) ∧
    ((vp.set_asid x).mode = vp.mode) ∧
    ((vp.set_asid x).ppn = vp.ppn) ∧
    ((vp.set_ppn x).mode = vp.mode) ∧
    ((vp.set_ppn x).asid = vp.asid) ∧
    ((vs.set_sd x).uxl = vs.uxl) ∧
    ((vs.set_sd x).mxr = vs.mxr) ∧
    ((vs.set_sd x).sum = vs.sum) ∧
    ((vs.set_sd x).xs = vs.xs) ∧
    ((vs.set_sd x).fs = vs.fs) ∧
    ((vs.set_sd x).spp = vs.spp) ∧
    ((vs.set_sd x).ube = vs.ube) ∧
    ((vs.set_sd x).spie = vs.spie) ∧
    ((vs.set_sd x).sie = vs.sie) ∧
    ((vs.set_uxl u).sd = vs.sd) ∧
    ((vs.set_uxl u).mxr = vs.mxr) ∧
    ((vs.set_uxl u).sum = vs.sum) ∧
    ((vs.set_uxl u).xs = vs.xs) ∧
    ((vs.set_uxl u).fs = vs.fs) ∧
    ((vs.set_uxl u).spp = vs.spp) ∧
    ((vs.set_uxl u).ube = vs.ube) ∧
    ((vs.set_uxl u).spie = vs.spie) ∧
    ((vs.set_uxl u).sie = vs.sie) ∧
    ((vs.set_mxr b).sd = vs.sd) ∧
    ((vs.set_mxr b).uxl = vs.uxl) ∧
    ((vs.set_mxr b).sum = vs.sum) ∧
    ((vs.set_mxr b).xs = vs.xs) ∧
    ((vs.set_mxr b).fs = vs.fs) ∧
    ((vs.set_mxr b).spp = vs.spp) ∧
    ((vs.set_mxr b).ube = vs.ube) ∧
    ((vs.set_mxr b).spie = vs.spie) ∧
    ((vs.set_mxr b).sie = vs.sie) ∧
    ((vs.set_sum b).sd = vs.sd) ∧
    ((vs.set_sum b).uxl = vs.uxl) ∧
    ((vs.set_sum b).mxr = vs.mxr) ∧
    ((vs.set_sum b).xs = vs.xs) ∧
    ((vs.set_sum b).fs = vs.fs) ∧
    ((vs.set_sum b).spp = vs.spp) ∧
    ((vs.set_sum b).ube = vs.ube) ∧
    ((vs.set_sum b).spie = vs.spie) ∧
    ((vs.set_sum b).sie = vs.sie) ∧
    ((vs.set_xs x).sd = vs.sd) ∧
    ((vs.set_xs x).uxl = vs.uxl) ∧
    ((vs.set_xs x).mxr = vs.mxr) ∧
    ((vs.set_xs x).sum = vs.sum) ∧
    ((vs.set_xs x).fs = vs.fs) ∧
    ((vs.set_xs x).spp = vs.spp) ∧
    ((vs.set_xs x).ube = vs.ube) ∧
    ((vs.set_xs x).spie = vs.spie) ∧
    ((vs.set_xs x).sie = vs.sie) ∧
    ((vs.set_fs x).sd = vs.sd) ∧
    ((vs.set_fs x).uxl = vs.uxl) ∧
    ((vs.set_fs x).mxr = vs.mxr) ∧
    ((vs.set_fs x).sum = vs.sum) ∧
    ((vs.set_fs x).xs = vs.xs) ∧
    ((vs.set_fs x).spp = vs.spp) ∧
    ((vs.set_fs x).ube = vs.ube) ∧
    ((vs.set_fs x).spie = vs.spie) ∧
    ((vs.set_fs x).sie = vs.sie) ∧
    ((vs.set_spp b).sd = vs.sd) ∧
    ((vs.set_spp b).uxl = vs.uxl) ∧
    ((vs.set_spp b).mxr = vs.mxr) ∧
    ((vs.set_spp b).sum = vs.sum) ∧
    ((vs.set_spp b).xs = vs.xs) ∧
    ((vs.set_spp b).fs = vs.fs) ∧
    ((vs.set_spp b).ube = vs.ube) ∧
    ((vs.set_spp b).spie = vs.spie) ∧
    ((vs.set_spp b).sie = vs.sie) ∧
    ((vs.set_ube b).sd = vs.sd) ∧
    ((vs.set_ube b).uxl = vs.uxl) ∧
    ((vs.set_ube b).mxr = vs.mxr) ∧
    ((vs.set_ube b).sum = vs.sum) ∧
    ((vs.set_ube b).xs = vs.xs) ∧
    ((vs.set_ube b).fs = vs.fs) ∧
    ((vs.set_ube b).spp = vs.spp) ∧
    ((vs.set_ube b).spie = vs.spie) ∧
    ((vs.set_ube b).sie = vs.sie) ∧
    ((vs.set_spie b).sd = vs.sd) ∧
    ((vs.set_spie b).uxl = vs.uxl) ∧
    ((vs.set_spie b).mxr = vs.mxr) ∧
    ((vs.set_spie b).sum = vs.sum) ∧
    ((vs.set_spie b).xs = vs.xs) ∧
    ((vs.set_spie b).fs = vs.fs) ∧
    ((vs.set_spie b).spp = vs.spp) ∧
    ((vs.set_spie b).ube = vs.ube) ∧
    ((vs.set_spie b).sie = vs.sie) ∧
    ((vs.set_sie b).sd = vs.sd) ∧
    ((vs.set_sie b).uxl = vs.uxl) ∧
    ((vs.set_sie b).mxr = vs.mxr) ∧
    ((vs.set_sie b).sum = vs.sum) ∧
    ((vs.set_sie b).xs = vs.xs) ∧
    ((vs.set_sie b).fs = vs.fs) ∧
    ((vs.set_sie b).spp = vs.spp) ∧
    ((vs.set_sie b).ube = vs.ube) ∧
    ((vs.set_sie b).spie = vs.spie) :=
  ⟨get_bits_set_bits_of_disjoint g.bits 44 58 60 64 (hgatp.HgatpValues.toNat m) (by omega),
   get_bits_set_bits_of_disjoint g.bits 0 44 60 64 (hgatp.HgatpValues.toNat m) (by omega),
   congrArg hgatp.HgatpValues.fromNat (get_bits_set_bits_of_disjoint g.bits 60 64 44 58 x (by omega)),
   get_bits_set_bits_of_disjoint g.bits 0 44 44 58 x (by omega),
   congrArg hgatp.HgatpValues.fromNat (get_bits_set_bits_of_disjoint g.bits 60 64 0 44 x (by omega)),
   get_bits_set_bits_of_disjoint g.bits 44 58 0 44 x (by omega),
   get_bit_set_bits_of_outside s.bits 32 34 (hstatus.VsxlValues.toNat vx) 22 (by omega),
   get_bit_set_bits_of_outside s.bits 32 34 (hstatus.VsxlValues.toNat vx) 21 (by omega),
   get_bit_set_bits_of_outside s.bits 32 34 (hstatus.VsxlValues.toNat vx) 20 (by omega),
   get_bits_set_bits_of_disjoint s.bits 12 18 32 34 (hstatus.VsxlValues.toNat vx) (by omega),
   get_bit_set_bits_of_outside s.bits 32 34 (hstatus.VsxlValues.toNat vx) 9 (by omega),
   get_bit_set_bits_of_outside s.bits 32 34 (hstatus.VsxlValues.toNat vx) 8 (by omega),
   get_bit_set_bits_of_outside s.bits 32 34 (hstatus.VsxlValues.toNat vx) 7 (by omega),
   get_bit_set_bits_of_outside s.bits 32 34 (hstatus.VsxlValues.toNat vx) 6 (by omega),
   get_bit_set_bits_of_outside s.bits 32 34 (hstatus.VsxlValues.toNat vx) 5 (by omega),
   congrArg hstatus.VsxlValues.fromNat (get_bits_set_bit_of_outside s.bits 32 34 22 b (by omega)),
   get_bit_set_bit_of_ne s.bits 22 b 21 (by omega),
   get_bit_set_bit_of_ne s.bits 22 b 20 (by omega),
   get_bits_set_bit_of_outside s.bits 12 18 22 b (by omega),
   get_bit_set_bit_of_ne s.bits 22 b 9 (by omega),
   get_bit_set_bit_of_ne s.bits 22 b 8 (by omega),
   get_bit_set_bit_of_ne s.bits 22 b 7 (by omega),
   get_bit_set_bit_of_ne s.bits 22 b 6 (by omega),
   get_bit_set_bit_of_ne s.bits 22 b 5 (by omega),
   congrArg hstatus.VsxlValues.fromNat (get_bits_set_bit_of_outside s.bits 32 34 21 b (by omega)),
   get_bit_set_bit_of_ne s.bits 21 b 22 (by omega),
   get_bit_set_bit_of_ne s.bits 21 b 20 (by omega),
   get_bits_set_bit_of_outside s.bits 12 18 21 b (by omega),
   get_bit_set_bit_of_ne s.bits 21 b 9 (by omega),
   get_bit_set_bit_of_ne s.bits 21 b 8 (by omega),
   get_bit_set_bit_of_ne s.bits 21 b 7 (by omega),
   get_bit_set_bit_of_ne s.bits 21 b 6 (by omega),
   get_bit_set_bit_of_ne s.bits 21 b 5 (by omega),
   congrArg hstatus.VsxlValues.fromNat (get_bits_set_bit_of_outside s.bits 32 34 20 b (by omega)),
   get_bit_set_bit_of_ne s.bits 20 b 22 (by omega),
   get_bit_set_bit_of_ne s.bits 20 b 21 (by omega),
   get_bits_set_bit_of_outside s.bits 12 18 20 b (by omega),
   get_bit_set_bit_of_ne s.bits 20 b 9 (by omega),
   get_bit_set_bit_of_ne s.bits 20 b 8 (by omega),
   get_bit_set_bit_of_ne s.bits 20 b 7 (by omega),
   get_bit_set_bit_of_ne s.bits 20 b 6 (by omega),
   get_bit_set_bit_of_ne s.bits 20 b 5 (by omega),
   congrArg hstatus.VsxlValues.fromNat (get_bits_set_bits_of_disjoint s.bits 32 34 12 18 x (by omega)),
   get_bit_set_bits_of_outside s.bits 12 18 x 22 (by omega),
   get_bit_set_bits_of_outside s.bits 12 18 x 21 (by omega),
   get_bit_set_bits_of_outside s.bits 12 18 x 20 (by omega),
   get_bit_set_bits_of_outside s.bits 12 18 x 9 (by omega),
   get_bit_set_bits_of_outside s.bits 12 18 x 8 (by omega),
   get_bit_set_bits_of_outside s.bits 12 18 x 7 (by omega),
   get_bit_set_bits_of_outside s.bits 12 18 x 6 (by omega),
   get_bit_set_bits_of_outside s.bits 12 18 x 5 (by omega),
   congrArg hstatus.VsxlValues.fromNat (get_bits_set_bit_of_outside s.bits 32 34 9 b (by omega)),
   get_bit_set_bit_of_ne s.bits 9 b 22 (by omega),
   get_bit_set_bit_of_ne s.bits 9 b 21 (by omega),
   get_bit_set_bit_of_ne s.bits 9 b 20 (by omega),
   get_bits_set_bit_of_outside s.bits 12 18 9 b (by omega),
   get_bit_set_bit_of_ne s.bits 9 b 8 (by omega),
   get_bit_set_bit_of_ne s.bits 9 b 7 (by omega),
   get_bit_set_bit_of_ne s.bits 9 b 6 (by omega),
   get_bit_set_bit_of_ne s.bits 9 b 5 (by omega),
   congrArg hstatus.VsxlValues.fromNat (get_bits_set_bit_of_outside s.bits 32 34 8 b (by omega)),
   get_bit_set_bit_of_ne s.bits 8 b 22 (by omega),
   get_bit_set_bit_of_ne s.bits 8 b 21 (by omega),
   get_bit_set_bit_of_ne s.bits 8 b 20 (by omega),
   get_bits_set_bit_of_outside s.bits 12 18 8 b (by omega),
   get_bit_set_bit_of_ne s.bits 8 b 9 (by omega),
   get_bit_set_bit_of_ne s.bits 8 b 7 (by omega),
   get_bit_set_bit_of_ne s.bits 8 b 6 (by omega),
   get_bit_set_bit_of_ne s.bits 8 b 5 (by omega),
   congrArg hstatus.VsxlValues.fromNat (get_bits_set_bit_of_outside s.bits 32 34 7 b (by omega)),
   get_bit_set_bit_of_ne s.bits 7 b 22 (by omega),
   get_bit_set_bit_of_ne s.bits 7 b 21 (by omega),
   get_bit_set_bit_of_ne s.bits 7 b 20 (by omega),
   get_bits_set_bit_of_outside s.bits 12 18 7 b (by omega),
   get_bit_set_bit_of_ne s.bits 7 b 9 (by omega),
   get_bit_set_bit_of_ne s.bits 7 b 8 (by omega),
   get_bit_set_bit_of_ne s.bits 7 b 6 (by omega),
   get_bit_set_bit_of_ne s.bits 7 b 5 (by omega),
   congrArg hstatus.VsxlValues.fromNat (get_bits_set_bit_of_outside s.bits 32 34 6 b (by omega)),
   get_bit_set_bit_of_ne s.bits 6 b 22 (by omega),
   get_bit_set_bit_of_ne s.bits 6 b 21 (by omega),
   get_bit_set_bit_of_ne s.bits 6 b 20 (by omega),
   get_bits_set_bit_of_outside s.bits 12 18 6 b (by omega),
   get_bit_set_bit_of_ne s.bits 6 b 9 (by omega),
   get_bit_set_bit_of_ne s.bits 6 b 8 (by omega),
   get_bit_set_bit_of_ne s.bits 6 b 7 (by omega),
   get_bit_set_bit_of_ne s.bits 6 b 5 (by omega),
   congrArg hstatus.VsxlValues.fromNat (get_bits_set_bit_of_outside s.bits 32 34 5 b (by omega)),
   get_bit_set_bit_of_ne s.bits 5 b 22 (by omega),
   get_bit_set_bit_of_ne s.bits 5 b 21 (by omega),
   get_bit_set_bit_of_ne s.bits 5 b 20 (by omega),
   get_bits_set_bit_of_outside s.bits 12 18 5 b (by omega),
   get_bit_set_bit_of_ne s.bits 5 b 9 (by omega),
   get_bit_set_bit_of_ne s.bits 5 b 8 (by omega),
   get_bit_set_bit_of_ne s.bits 5 b 7 (by omega),
   get_bit_set_bit_of_ne s.bits 5 b 6 (by omega),
   get_bit_set_bit_of_ne d.bits 0 b 1 (by omega),
   get_bit_set_bit_of_ne d.bits 0 b 2 (by omega),
   get_bit_set_bit_of_ne d.bits 0 b 3 (by omega),
   get_bit_set_bit_of_ne d.bits 0 b 4 (by omega),
   get_bit_set_bit_of_ne d.bits 0 b 5 (by omega),
   get_bit_set_bit_of_ne d.bits 0 b 6 (by omega),
   get_bit_set_bit_of_ne d.bits 0 b 7 (by omega),
   get_bit_set_bit_of_ne d.bits 0 b 8 (by omega),
   get_bit_set_bit_of_ne d.bits 0 b 12 (by omega),
   get_bit_set_bit_of_ne d.bits 0 b 13 (by omega),
   get_bit_set_bit_of_ne d.bits 0 b 15 (by omega),
   get_bit_set_bit_of_ne d.bits 1 b 0 (by omega),
   get_bit_set_bit_of_ne d.bits 1 b 2 (by omega),
   get_bit_set_bit_of_ne d.bits 1 b 3 (by omega),
   get_bit_set_bit_of_ne d.bits 1 b 4 (by omega),
   get_bit_set_bit_of_ne d.bits 1 b 5 (by omega),
   get_bit_set_bit_of_ne d.bits 1 b 6 (by omega),
   get_bit_set_bit_of_ne d.bits 1 b 7 (by omega),
   get_bit_set_bit_of_ne d.bits 1 b 8 (by omega),
   get_bit_set_bit_of_ne d.bits 1 b 12 (by omega),
   get_bit_set_bit_of_ne d.bits 1 b 13 (by omega),
   get_bit_set_bit_of_ne d.bits 1 b 15 (by omega),
   get_bit_set_bit_of_ne d.bits 2 b 0 (by omega),
   get_bit_set_bit_of_ne d.bits 2 b 1 (by omega),
   get_bit_set_bit_of_ne d.bits 2 b 3 (by omega),
   get_bit_set_bit_of_ne d.bits 2 b 4 (by omega),
   get_bit_set_bit_of_ne d.bits 2 b 5 (by omega),
   get_bit_set_bit_of_ne d.bits 2 b 6 (by omega),
   get_bit_set_bit_of_ne d.bits 2 b 7 (by omega),
   get_bit_set_bit_of_ne d.bits 2 b 8 (by omega),
   get_bit_set_bit_of_ne d.bits 2 b 12 (by omega),
   get_bit_set_bit_of_ne d.bits 2 b 13 (by omega),
   get_bit_set_bit_of_ne d.bits 2 b 15 (by omega),
   get_bit_set_bit_of_ne d.bits 3 b 0 (by omega),
   get_bit_set_bit_of_ne d.bits 3 b 1 (by omega),
   get_bit_set_bit_of_ne d.bits 3 b 2 (by omega),
   get_bit_set_bit_of_ne d.bits 3 b 4 (by omega),
   get_bit_set_bit_of_ne d.bits 3 b 5 (by omega),
   get_bit_set_bit_of_ne d.bits 3 b 6 (by omega),
   get_bit_set_bit_of_ne d.bits 3 b 7 (by omega),
   get_bit_set_bit_of_ne d.bits 3 b 8 (by omega),
   get_bit_set_bit_of_ne d.bits 3 b 12 (by omega),
   get_bit_set_bit_of_ne d.bits 3 b 13 (by omega),
   get_bit_set_bit_of_ne d.bits 3 b 15 (by omega),
   get_bit_set_bit_of_ne d.bits 4 b 0 (by omega),
   get_bit_set_bit_of_ne d.bits 4 b 1 (by omega),
   get_bit_set_bit_of_ne d.bits 4 b 2 (by omega),
   get_bit_set_bit_of_ne d.bits 4 b 3 (by omega),
   get_bit_set_bit_of_ne d.bits 4 b 5 (by omega),
   get_bit_set_bit_of_ne d.bits 4 b 6 (by omega),
   get_bit_set_bit_of_ne d.bits 4 b 7 (by omega),
   get_bit_set_bit_of_ne d.bits 4 b 8 (by omega),
   get_bit_set_bit_of_ne d.bits 4 b 12 (by omega),
   get_bit_set_bit_of_ne d.bits 4 b 13 (by omega),
   get_bit_set_bit_of_ne d.bits 4 b 15 (by omega),
   get_bit_set_bit_of_ne d.bits 5 b 0 (by omega),
   get_bit_set_bit_of_ne d.bits 5 b 1 (by omega),
   get_bit_set_bit_of_ne d.bits 5 b 2 (by omega),
   get_bit_set_bit_of_ne d.bits 5 b 3 (by omega),
   get_bit_set_bit_of_ne d.bits 5 b 4 (by omega),
   get_bit_set_bit_of_ne d.bits 5 b 6 (by omega),
   get_bit_set_bit_of_ne d.bits 5 b 7 (by omega),
   get_bit_set_bit_of_ne d.bits 5 b 8 (by omega),
   get_bit_set_bit_of_ne d.bits 5 b 12 (by omega),
   get_bit_set_bit_of_ne d.bits 5 b 13 (by omega),
   get_bit_set_bit_of_ne d.bits 5 b 15 (by omega),
   get_bit_set_bit_of_ne d.bits 6 b 0 (by omega),
   get_bit_set_bit_of_ne d.bits 6 b 1 (by omega),
   get_bit_set_bit_of_ne d.bits 6 b 2 (by omega),
   get_bit_set_bit_of_ne d.bits 6 b 3 (by omega),
   get_bit_set_bit_of_ne d.bits 6 b 4 (by omega),
   get_bit_set_bit_of_ne d.bits 6 b 5 (by omega),
   get_bit_set_bit_of_ne d.bits 6 b 7 (by omega),
   get_bit_set_bit_of_ne d.bits 6 b 8 (by omega),
   get_bit_set_bit_of_ne d.bits 6 b 12 (by omega),
   get_bit_set_bit_of_ne d.bits 6 b 13 (by omega),
   get_bit_set_bit_of_ne d.bits 6 b 15 (by omega),
   get_bit_set_bit_of_ne d.bits 7 b 0 (by omega),
   get_bit_set_bit_of_ne d.bits 7 b 1 (by omega),
   get_bit_set_bit_of_ne d.bits 7 b 2 (by omega),
   get_bit_set_bit_of_ne d.bits 7 b 3 (by omega),
   get_bit_set_bit_of_ne d.bits 7 b 4 (by omega),
   get_bit_set_bit_of_ne d.bits 7 b 5 (by omega),
   get_bit_set_bit_of_ne d.bits 7 b 6 (by omega),
   get_bit_set_bit_of_ne d.bits 7 b 8 (by omega),
   get_bit_set_bit_of_ne d.bits 7 b 12 (by omega),
   get_bit_set_bit_of_ne d.bits 7 b 13 (by omega),
   get_bit_set_bit_of_ne d.bits 7 b 15 (by omega),
   get_bit_set_bit_of_ne d.bits 8 b 0 (by omega),
   get_bit_set_bit_of_ne d.bits 8 b 1 (by omega),
   get_bit_set_bit_of_ne d.bits 8 b 2 (by omega),
   get_bit_set_bit_of_ne d.bits 8 b 3 (by omega),
   get_bit_set_bit_of_ne d.bits 8 b 4 (by omega),
   get_bit_set_bit_of_ne d.bits 8 b 5 (by omega),
   get_bit_set_bit_of_ne d.bits 8 b 6 (by omega),
   get_bit_set_bit_of_ne d.bits 8 b 7 (by omega),
   get_bit_set_bit_of_ne d.bits 8 b 12 (by omega),
   get_bit_set_bit_of_ne d.bits 8 b 13 (by omega),
   get_bit_set_bit_of_ne d.bits 8 b 15 (by omega),
   get_bit_set_bit_of_ne d.bits 12 b 0 (by omega),
   get_bit_set_bit_of_ne d.bits 12 b 1 (by omega),
   get_bit_set_bit_of_ne d.bits 12 b 2 (by omega),
   get_bit_set_bit_of_ne d.bits 12 b 3 (by omega),
   get_bit_set_bit_of_ne d.bits 12 b 4 (by omega),
   get_bit_set_bit_of_ne d.bits 12 b 5 (by omega),
   get_bit_set_bit_of_ne d.bits 12 b 6 (by omega),
   get_bit_set_bit_of_ne d.bits 12 b 7 (by omega),
   get_bit_set_bit_of_ne d.bits 12 b 8 (by omega),
   get_bit_set_bit_of_ne d.bits 12 b 13 (by omega),
   get_bit_set_bit_of_ne d.bits 12 b 15 (by omega),
   get_bit_set_bit_of_ne d.bits 13 b 0 (by omega),
   get_bit_set_bit_of_ne d.bits 13 b 1 (by omega),
   get_bit_set_bit_of_ne d.bits 13 b 2 (by omega),
   get_bit_set_bit_of_ne d.bits 13 b 3 (by omega),
   get_bit_set_bit_of_ne d.bits 13 b 4 (by omega),
   get_bit_set_bit_of_ne d.bits 13 b 5 (by omega),
   get_bit_set_bit_of_ne d.bits 13 b 6 (by omega),
   get_bit_set_bit_of_ne d.bits 13 b 7 (by omega),
   get_bit_set_bit_of_ne d.bits 13 b 8 (by omega),
   get_bit_set_bit_of_ne d.bits 13 b 12 (by omega),
   get_bit_set_bit_of_ne d.bits 13 b 15 (by omega),
   get_bit_set_bit_of_ne d.bits 15 b 0 (by omega),
   get_bit_set_bit_of_ne d.bits 15 b 1 (by omega),
   get_bit_set_bit_of_ne d.bits 15 b 2 (by omega),
   get_bit_set_bit_of_ne d.bits 15 b 3 (by omega),
   get_bit_set_bit_of_ne d.bits 15 b 4 (by omega),
   get_bit_set_bit_of_ne d.bits 15 b 5 (by omega),
   get_bit_set_bit_of_ne d.bits 15 b 6 (by omega),
   get_bit_set_bit_of_ne d.bits 15 b 7 (by omega),
   get_bit_set_bit_of_ne d.bits 15 b 8 (by omega),
   get_bit_set_bit_of_ne d.bits 15 b 12 (by omega),
   get_bit_set_bit_of_ne d.bits 15 b 13 (by omega),
   get_bits_set_bits_of_disjoint vp.bits 44 60 60 64 (vsatp.HgatpValues.toNat vm) (by omega),
   get_bits_set_bits_of_disjoint vp.bits 0 44 60 64 (vsatp.HgatpValues.toNat vm) (by omega),
   congrArg vsatp.HgatpValues.fromNat (get_bits_set_bits_of_disjoint vp.bits 60 64 44 60 x (by omega)),
   get_bits_set_bits_of_disjoint vp.bits 0 44 44 60 x (by omega),
   congrArg vsatp.HgatpValues.fromNat (get_bits_set_bits_of_disjoint vp.bits 60 64 0 44 x (by omega)),
   get_bits_set_bits_of_disjoint vp.bits 44 60 0 44 x (by omega),
   congrArg vsstatus.UxlValues.fromNat (get_bits_set_bits_of_disjoint vs.bits 32 34 60 64 x (by omega)),
   get_bit_set_bits_of_outside vs.bits 60 64 x 19 (by omega),
   get_bit_set_bits_of_outside vs.bits 60 64 x 18 (by omega),
   get_bits_set_bits_of_disjoint vs.bits 15 17 60 64 x (by omega),
   get_bits_set_bits_of_disjoint vs.bits 13 15 60 64 x (by omega),
   get_bit_set_bits_of_outside vs.bits 60 64 x 8 (by omega),
   get_bit_set_bits_of_outside vs.bits 60 64 x 6 (by omega),
   get_bit_set_bits_of_outside vs.bits 60 64 x 5 (by omega),
   get_bit_set_bits_of_outside vs.bits 60 64 x 1 (by omega),
   get_bits_set_bits_of_disjoint vs.bits 60 64 32 34 (vsstatus.UxlValues.toNat u) (by omega),
   get_bit_set_bits_of_outside vs.bits 32 34 (vsstatus.UxlValues.toNat u) 19 (by omega),
   get_bit_set_bits_of_outside vs.bits 32 34 (vsstatus.UxlValues.toNat u) 18 (by omega),
   get_bits_set_bits_of_disjoint vs.bits 15 17 32 34 (vsstatus.UxlValues.toNat u) (by omega),
   get_bits_set_bits_of_disjoint vs.bits 13 15 32 34 (vsstatus.UxlValues.toNat u) (by omega),
   get_bit_set_bits_of_outside vs.bits 32 34 (vsstatus.UxlValues.toNat u) 8 (by omega),
   get_bit_set_bits_of_outside vs.bits 32 34 (vsstatus.UxlValues.toNat u) 6 (by omega),
   get_bit_set_bits_of_outside vs.bits 32 34 (vsstatus.UxlValues.toNat u) 5 (by omega),
   get_bit_set_bits_of_outside vs.bits 32 34 (vsstatus.UxlValues.toNat u) 1 (by omega),
   get_bits_set_bit_of_outside vs.bits 60 64 19 b (by omega),
   congrArg vsstatus.UxlValues.fromNat (get_bits_set_bit_of_outside vs.bits 32 34 19 b (by omega)),
   get_bit_set_bit_of_ne vs.bits 19 b 18 (by omega),
   get_bits_set_bit_of_outside vs.bits 15 17 19 b (by omega),
   get_bits_set_bit_of_outside vs.bits 13 15 19 b (by omega),
   get_bit_set_bit_of_ne vs.bits 19 b 8 (by omega),
   get_bit_set_bit_of_ne vs.bits 19 b 6 (by omega),
   get_bit_set_bit_of_ne vs.bits 19 b 5 (by omega),
   get_bit_set_bit_of_ne vs.bits 19 b 1 (by omega),
   get_bits_set_bit_of_outside vs.bits 60 64 18 b (by omega),
   congrArg vsstatus.UxlValues.fromNat (get_bits_set_bit_of_outside vs.bits 32 34 18 b (by omega)),
   get_bit_set_bit_of_ne vs.bits 18 b 19 (by omega),
   get_bits_set_bit_of_outside vs.bits 15 17 18 b (by omega),
   get_bits_set_bit_of_outside vs.bits 13 15 18 b (by omega),
   get_bit_set_bit_of_ne vs.bits 18 b 8 (by omega),
   get_bit_set_bit_of_ne vs.bits 18 b 6 (by omega),
   get_bit_set_bit_of_ne vs.bits 18 b 5 (by omega),
   get_bit_set_bit_of_ne vs.bits 18 b 1 (by omega),
   get_bits_set_bits_of_disjoint vs.bits 60 64 15 17 x (by omega),
   congrArg vsstatus.UxlValues.fromNat (get_bits_set_bits_of_disjoint vs.bits 32 34 15 17 x (by omega)),
   get_bit_set_bits_of_outside vs.bits 15 17 x 19 (by omega),
   get_bit_set_bits_of_outside vs.bits 15 17 x 18 (by omega),
   get_bits_set_bits_of_disjoint vs.bits 13 15 15 17 x (by omega),
   get_bit_set_bits_of_outside vs.bits 15 17 x 8 (by omega),
   get_bit_set_bits_of_outside vs.bits 15 17 x 6 (by omega),
   get_bit_set_bits_of_outside vs.bits 15 17 x 5 (by omega),
   get_bit_set_bits_of_outside vs.bits 15 17 x 1 (by omega),
   get_bits_set_bits_of_disjoint vs.bits 60 64 13 15 x (by omega),
   congrArg vsstatus.UxlValues.fromNat (get_bits_set_bits_of_disjoint vs.bits 32 34 13 15 x (by omega)),
   get_bit_set_bits_of_outside vs.bits 13 15 x 19 (by omega),
   get_bit_set_bits_of_outside vs.bits 13 15 x 18 (by omega),
   get_bits_set_bits_of_disjoint vs.bits 15 17 13 15 x (by omega),
   get_bit_set_bits_of_outside vs.bits 13 15 x 8 (by omega),
   get_bit_set_bits_of_outside vs.bits 13 15 x 6 (by omega),
   get_bit_set_bits_of_outside vs.bits 13 15 x 5 (by omega),
   get_bit_set_bits_of_outside vs.bits 13 15 x 1 (by omega),
   get_bits_set_bit_of_outside vs.bits 60 64 8 b (by omega),
   congrArg vsstatus.UxlValues.fromNat (get_bits_set_bit_of_outside vs.bits 32 34 8 b (by omega)),
   get_bit_set_bit_of_ne vs.bits 8 b 19 (by omega),
   get_bit_set_bit_of_ne vs.bits 8 b 18 (by omega),
   get_bits_set_bit_of_outside vs.bits 15 17 8 b (by omega),
   get_bits_set_bit_of_outside vs.bits 13 15 8 b (by omega),
   get_bit_set_bit_of_ne vs.bits 8 b 6 (by omega),
   get_bit_set_bit_of_ne vs.bits 8 b 5 (by omega),
   get_bit_set_bit_of_ne vs.bits 8 b 1 (by omega),
   get_bits_set_bit_of_outside vs.bits 60 64 6 b (by omega),
   congrArg vsstatus.UxlValues.fromNat (get_bits_set_bit_of_outside vs.bits 32 34 6 b (by omega)),
   get_bit_set_bit_of_ne vs.bits 6 b 19 (by omega),
   get_bit_set_bit_of_ne vs.bits 6 b 18 (by omega),
   get_bits_set_bit_of_outside vs.bits 15 17 6 b (by omega),
   get_bits_set_bit_of_outside vs.bits 13 15 6 b (by omega),
   get_bit_set_bit_of_ne vs.bits 6 b 8 (by omega),
   get_bit_set_bit_of_ne vs.bits 6 b 5 (by omega),
   get_bit_set_bit_of_ne vs.bits 6 b 1 (by omega),
   get_bits_set_bit_of_outside vs.bits 60 64 5 b (by omega),
   congrArg vsstatus.UxlValues.fromNat (get_bits_set_bit_of_outside vs.bits 32 34 5 b (by omega)),
   get_bit_set_bit_of_ne vs.bits 5 b 19 (by omega),
   get_bit_set_bit_of_ne vs.bits 5 b 18 (by omega),
   get_bits_set_bit_of_outside vs.bits 15 17 5 b (by omega),
   get_bits_set_bit_of_outside vs.bits 13 15 5 b (by omega),
   get_bit_set_bit_of_ne vs.bits 5 b 8 (by omega),
   get_bit_set_bit_of_ne vs.bits 5 b 6 (by omega),
   get_bit_set_bit_of_ne vs.bits 5 b 1 (by omega),
   get_bits_set_bit_of_outside vs.bits 60 64 1 b (by omega),
   congrArg vsstatus.UxlValues.fromNat (get_bits_set_bit_of_outside vs.bits 32 34 1 b (by omega)),
   get_bit_set_bit_of_ne vs.bits 1 b 19 (by omega),
   get_bit_set_bit_of_ne vs.bits 1 b 18 (by omega),
   get_bits_set_bit_of_outside vs.bits 15 17 1 b (by omega),
   get_bits_set_bit_of_outside vs.bits 13 15 1 b (by omega),
   get_bit_set_bit_of_ne vs.bits 1 b 8 (by omega),
   get_bit_set_bit_of_ne vs.bits 1 b 6 (by omega),
   get_bit_set_bit_of_ne vs.bits 1 b 5 (by omega)⟩

/-- C9: setters for distinct fields of the same register view commute: for
every pair of distinct fields and all field values, applying the two setters
in either order yields the same view (hence the same raw value).  Stated for
every field pair of the Hgatp, Hstatus, Hedeleg, Vsatp and Vsstatus views. -/
theorem C9_setters_commute (g : hgatp.Hgatp) (s : hstatus.Hstatus) (d : hedeleg.Hedeleg)
    (vp : vsatp.Vsatp) (vs : vsstatus.Vsstatus)
    (x y : Nat) (b c : Bool)
    (m : hgatp.HgatpValues) (vm : vsatp.HgatpValues)
    (vx : hstatus.VsxlValues) (u : vsstatus.UxlValues) :
    ((g.set_mode m).set_vmid y = (g.set_vmid y).set_mode m) ∧
    ((g.set_mode m).set_ppn y = (g.set_ppn y).set_mode m) ∧
    ((g.set_vmid x).set_ppn y = (g.set_ppn y).set_vmid x) ∧
    ((s.set_vsxl vx).set_vtsr c = (s.set_vtsr c).set_vsxl vx) ∧
    ((s.set_vsxl vx).set_vtw c = (s.set_vtw c).set_vsxl vx) ∧
    ((s.set_vsxl vx).set_vtvm c = (s.set_vtvm c).set_vsxl vx) ∧
    ((s.set_vsxl vx).set_vgein y = (s.set_vgein y).set_vsxl vx) ∧
    ((s.set_vsxl vx).set_hu c = (s.set_hu c).set_vsxl vx) ∧
    ((s.set_vsxl vx).set_spvp c = (s.set_spvp c).set_vsxl vx) ∧
    ((s.set_vsxl vx).set_spv c = (s.set_spv c).set_vsxl vx) ∧
    ((s.set_vsxl vx).set_gva c = (s.set_gva c).set_vsxl vx) ∧
    ((s.set_vsxl vx).set_vsbe c = (s.set_vsbe c).set_vsxl vx) ∧
    ((s.set_vtsr b).set_vtw c = (s.set_vtw c).set_vtsr b) ∧
    ((s.set_vtsr b).set_vtvm c = (s.set_vtvm c).set_vtsr b) ∧
    ((s.set_vgein x).set_vtsr c = (s.set_vtsr c).set_vgein x) ∧
    ((s.set_vtsr b).set_hu c = (s.set_hu c).set_vtsr b) ∧
    ((s.set_vtsr b).set_spvp c = (s.set_spvp c).set_vtsr b) ∧
    ((s.set_vtsr b).set_spv c = (s.set_spv c).set_vtsr b) ∧
    ((s.set_vtsr b).set_gva c = (s.set_gva c).set_vtsr b) ∧
    ((s.set_vtsr b).set_vsbe c = (s.set_vsbe c).set_vtsr b) ∧
    ((s.set_vtw b).set_vtvm c = (s.set_vtvm c).set_vtw b) ∧
    ((s.set_vgein x).set_vtw c = (s.set_vtw c).set_vgein x) ∧
    ((s.set_vtw b).set_hu c = (s.set_hu c).set_vtw b) ∧
    ((s.set_vtw b).set_spvp c = (s.set_spvp c).set_vtw b) ∧
    ((s.set_vtw b).set_spv c = (s.set_spv c).set_vtw b) ∧
    ((s.set_vtw b).set_gva c = (s.set_gva c).set_vtw b) ∧
    ((s.set_vtw b).set_vsbe c = (s.set_vsbe c).set_vtw b) ∧
    ((s.set_vgein x).set_vtvm c = (s.set_vtvm c).set_vgein x) ∧
    ((s.set_vtvm b).set_hu c = (s.set_hu c).set_vtvm b) ∧
    ((s.set_vtvm b).set_spvp c = (s.set_spvp c).set_vtvm b) ∧
    ((s.set_vtvm b).set_spv c = (s.set_spv c).set_vtvm b) ∧
    ((s.set_vtvm b).set_gva c = (s.set_gva c).set_vtvm b) ∧
    ((s.set_vtvm b).set_vsbe c = (s.set_vsbe c).set_vtvm b) ∧
    ((s.set_vgein x).set_hu c = (s.set_hu c).set_vgein x) ∧
    ((s.set_vgein x).set_spvp c = (s.set_spvp c).set_vgein x) ∧
    ((s.set_vgein x).set_spv c = (s.set_spv c).set_vgein x) ∧
    ((s.set_vgein x).set_gva c = (s.set_gva c).set_vgein x) ∧
    ((s.set_vgein x).set_vsbe c = (s.set_vsbe c).set_vgein x) ∧
    ((s.set_hu b).set_spvp c = (s.set_spvp c).set_hu b) ∧
    ((s.set_hu b).set_spv c = (s.set_spv c).set_hu b) ∧
    ((s.set_hu b).set_gva c = (s.set_gva c).set_hu b) ∧
    ((s.set_hu b).set_vsbe c = (s.set_vsbe c).set_hu b) ∧
    ((s.set_spvp b).set_spv c = (s.set_spv c).set_spvp b) ∧
    ((s.set_spvp b).set_gva c = (s.set_gva c).set_spvp b) ∧
    ((s.set_spvp b).set_vsbe c = (s.set_vsbe c).set_spvp b) ∧
    ((s.set_spv b).set_gva c = (s.set_gva c).set_spv b) ∧
    ((s.set_spv b).set_vsbe c = (s.set_vsbe c).set_spv b) ∧
    ((s.set_gva b).set_vsbe c = (s.set_vsbe c).set_gva b) ∧
    ((d.set_ex0 b).set_ex1 c = (d.set_ex1 c).set_ex0 b) ∧
    ((d.set_ex0 b).set_ex2 c = (d.set_ex2 c).set_ex0 b) ∧
    ((d.set_ex0 b).set_ex3 c = (d.set_ex3 c).set_ex0 b) ∧
    ((d.set_ex0 b).set_ex4 c = (d.set_ex4 c).set_ex0 b) ∧
    ((d.set_ex0 b).set_ex5 c = (d.set_ex5 c).set_ex0 b) ∧
    ((d.set_ex0 b).set_ex6 c = (d.set_ex6 c).set_ex0 b) ∧
    ((d.set_ex0 b).set_ex7 c = (d.set_ex7 c).set_ex0 b) ∧
    ((d.set_ex0 b).set_ex8 c = (d.set_ex8 c).set_ex0 b) ∧
    ((d.set_ex0 b).set_ex12 c = (d.set_ex12 c).set_ex0 b) ∧
    ((d.set_ex0 b).set_ex13 c = (d.set_ex13 c).set_ex0 b) ∧
    ((d.set_ex0 b).set_ex15 c = (d.set_ex15 c).set_ex0 b) ∧
    ((d.set_ex1 b).set_ex2 c = (d.set_ex2 c).set_ex1 b) ∧
    ((d.set_ex1 b).set_ex3 c = (d.set_ex3 c).set_ex1 b) ∧
    ((d.set_ex1 b).set_ex4 c = (d.set_ex4 c).set_ex1 b) ∧
    ((d.set_ex1 b).set_ex5 c = (d.set_ex5 c).set_ex1 b) ∧
    ((d.set_ex1 b).set_ex6 c = (d.set_ex6 c).set_ex1 b) ∧
    ((d.set_ex1 b).set_ex7 c = (d.set_ex7 c).set_ex1 b) ∧
    ((d.set_ex1 b).set_ex8 c = (d.set_ex8 c).set_ex1 b) ∧
    ((d.set_ex1 b).set_ex12 c = (d.set_ex12 c).set_ex1 b) ∧
    ((d.set_ex1 b).set_ex13 c = (d.set_ex13 c).set_ex1 b) ∧
    ((d.set_ex1 b).set_ex15 c = (d.set_ex15 c).set_ex1 b) ∧
    ((d.set_ex2 b).set_ex3 c = (d.set_ex3 c).set_ex2 b) ∧
    ((d.set_ex2 b).set_ex4 c = (d.set_ex4 c).set_ex2 b) ∧
    ((d.set_ex2 b).set_ex5 c = (d.set_ex5 c).set_ex2 b) ∧
    ((d.set_ex2 b).set_ex6 c = (d.set_ex6 c).set_ex2 b) ∧
    ((d.set_ex2 b).set_ex7 c = (d.set_ex7 c).set_ex2 b) ∧
    ((d.set_ex2 b).set_ex8 c = (d.set_ex8 c).set_ex2 b) ∧
    ((d.set_ex2 b).set_ex12 c = (d.set_ex12 c).set_ex2 b) ∧
    ((d.set_ex2 b).set_ex13 c = (d.set_ex13 c).set_ex2 b) ∧
    ((d.set_ex2 b).set_ex15 c = (d.set_ex15 c).set_ex2 b) ∧
    ((d.set_ex3 b).set_ex4 c = (d.set_ex4 c).set_ex3 b) ∧
    ((d.set_ex3 b).set_ex5 c = (d.set_ex5 c).set_ex3 b) ∧
    ((d.set_ex3 b).set_ex6 c = (d.set_ex6 c).set_ex3 b) ∧
    ((d.set_ex3 b).set_ex7 c = (d.set_ex7 c).set_ex3 b) ∧
    ((d.set_ex3 b).set_ex8 c = (d.set_ex8 c).set_ex3 b) ∧
    ((d.set_ex3 b).set_ex12 c = (d.set_ex12 c).set_ex3 b) ∧
    ((d.set_ex3 b).set_ex13 c = (d.set_ex13 c).set_ex3 b) ∧
    ((d.set_ex3 b).set_ex15 c = (d.set_ex15 c).set_ex3 b) ∧
    ((d.set_ex4 b).set_ex5 c = (d.set_ex5 c).set_ex4 b) ∧
    ((d.set_ex4 b).set_ex6 c = (d.set_ex6 c).set_ex4 b) ∧
    ((d.set_ex4 b).set_ex7 c = (d.set_ex7 c).set_ex4 b) ∧
    ((d.set_ex4 b).set_ex8 c = (d.set_ex8 c).set_ex4 b) ∧
    ((d.set_ex4 b).set_ex12 c = (d.set_ex12 c).set_ex4 b) ∧
    ((d.set_ex4 b).set_ex13 c = (d.set_ex13 c).set_ex4 b) ∧
    ((d.set_ex4 b).set_ex15 c = (d.set_ex15 c).set_ex4 b) ∧
    ((d.set_ex5 b).set_ex6 c = (d.set_ex6 c).set_ex5 b) ∧
    ((d.set_ex5 b).set_ex7 c = (d.set_ex7 c).set_ex5 b) ∧
    ((d.set_ex5 b).set_ex8 c = (d.set_ex8 c).set_ex5 b) ∧
    ((d.set_ex5 b).set_ex12 c = (d.set_ex12 c).set_ex5 b) ∧
    ((d.set_ex5 b).set_ex13 c = (d.set_ex13 c).set_ex5 b) ∧
    ((d.set_ex5 b).set_ex15 c = (d.set_ex15 c).set_ex5 b) ∧
    ((d.set_ex6 b).set_ex7 c = (d.set_ex7 c).set_ex6 b) ∧
    ((d.set_ex6 b).set_ex8 c = (d.set_ex8 c).set_ex6 b) ∧
    ((d.set_ex6 b).set_ex12 c = (d.set_ex12 c).set_ex6 b) ∧
    ((d.set_ex6 b).set_ex13 c = (d.set_ex13 c).set_ex6 b) ∧
    ((d.set_ex6 b).set_ex15 c = (d.set_ex15 c).set_ex6 b) ∧
    ((d.set_ex7 b).set_ex8 c = (d.set_ex8 c).set_ex7 b) ∧
    ((d.set_ex7 b).set_ex12 c = (d.set_ex12 c).set_ex7 b) ∧
    ((d.set_ex7 b).set_ex13 c = (d.set_ex13 c).set_ex7 b) ∧
    ((d.set_ex7 b).set_ex15 c = (d.set_ex15 c).set_ex7 b) ∧
    ((d.set_ex8 b).set_ex12 c = (d.set_ex12 c).set_ex8 b) ∧
    ((d.set_ex8 b).set_ex13 c = (d.set_ex13 c).set_ex8 b) ∧
    ((d.set_ex8 b).set_ex15 c = (d.set_ex15 c).set_ex8 b) ∧
    ((d.set_ex12 b).set_ex13 c = (d.set_ex13 c).set_ex12 b) ∧
    ((d.set_ex12 b).set_ex15 c = (d.set_ex15 c).set_ex12 b) ∧
    ((d.set_ex13 b).set_ex15 c = (d.set_ex15 c).set_ex13 b) ∧
    ((vp.set_mode vm).set_asid y = (vp.set_asid y).set_mode vm) ∧
    ((vp.set_mode vm).set_ppn y = (vp.set_ppn y).set_mode vm) ∧
    ((vp.set_asid x).set_ppn y = (vp.set_ppn y).set_asid x) ∧
    ((vs.set_sd x).set_uxl u = (vs.set_uxl u).set_sd x) ∧
    ((vs.set_sd x).set_mxr c = (vs.set_mxr c).set_sd x) ∧
    ((vs.set_sd x).set_sum c = (vs.set_sum c).set_sd x) ∧
    ((vs.set_sd x).set_xs y = (vs.set_xs y).set_sd x) ∧
    ((vs.set_sd x).set_fs y = (vs.set_fs y).set_sd x) ∧
    ((vs.set_sd x).set_spp c = (vs.set_spp c).set_sd x) ∧
    ((vs.set_sd x).set_ube c = (vs.set_ube c).set_sd x) ∧
    ((vs.set_sd x).set_spie c = (vs.set_spie c).set_sd x) ∧
    ((vs.set_sd x).set_sie c = (vs.set_sie c).set_sd x) ∧
    ((vs.set_uxl u).set_mxr c = (vs.set_mxr c).set_uxl u) ∧
    ((vs.set_uxl u).set_sum c = (vs.set_sum c).set_uxl u) ∧
    ((vs.set_uxl u).set_xs y = (vs.set_xs y).set_uxl u) ∧
    ((vs.set_uxl u).set_fs y = (vs.set_fs y).set_uxl u) ∧
    ((vs.set_uxl u).set_spp c = (vs.set_spp c).set_uxl u) ∧
    ((vs.set_uxl u).set_ube c = (vs.set_ube c).set_uxl u) ∧
    ((vs.set_uxl u).set_spie c = (vs.set_spie c).set_uxl u) ∧
    ((vs.set_uxl u).set_sie c = (vs.set_sie c).set_uxl u) ∧
    ((vs.set_mxr b).set_sum c = (vs.set_sum c).set_mxr b) ∧
    ((vs.set_xs x).set_mxr c = (vs.set_mxr c).set_xs x) ∧
    ((vs.set_fs x).set_mxr c = (vs.set_mxr c).set_fs x) ∧
    ((vs.set_mxr b).set_spp c = (vs.set_spp c).set_mxr b) ∧
    ((vs.set_mxr b).set_ube c = (vs.set_ube c).set_mxr b) ∧
    ((vs.set_mxr b).set_spie c = (vs.set_spie c).set_mxr b) ∧
    ((vs.set_mxr b).set_sie c = (vs.set_sie c).set_mxr b) ∧
    ((vs.set_xs x).set_sum c = (vs.set_sum c).set_xs x) ∧
    ((vs.set_fs x).set_sum c = (vs.set_sum c).set_fs x) ∧
    ((vs.set_sum b).set_spp c = (vs.set_spp c).set_sum b) ∧
    ((vs.set_sum b).set_ube c = (vs.set_ube c).set_sum b) ∧
    ((vs.set_sum b).set_spie c = (vs.set_spie c).set_sum b) ∧
    ((vs.set_sum b).set_sie c = (vs.set_sie c).set_sum b) ∧
    ((vs.set_xs x).set_fs y = (vs.set_fs y).set_xs x) ∧
    ((vs.set_xs x).set_spp c = (vs.set_spp c).set_xs x) ∧
    ((vs.set_xs x).set_ube c = (vs.set_ube c).set_xs x) ∧
    ((vs.set_xs x).set_spie c = (vs.set_spie c).set_xs x) ∧
    ((vs.set_xs x).set_sie c = (vs.set_sie c).set_xs x) ∧
    ((vs.set_fs x).set_spp c = (vs.set_spp c).set_fs x) ∧
    ((vs.set_fs x).set_ube c = (vs.set_ube c).set_fs x) ∧
    ((vs.set_fs x).set_spie c = (vs.set_spie c).set_fs x) ∧
    ((vs.set_fs x).set_sie c = (vs.set_sie c).set_fs x) ∧
    ((vs.set_spp b).set_ube c = (vs.set_ube c).set_spp b) ∧
    ((vs.set_spp b).set_spie c = (vs.set_spie c).set_spp b) ∧
    ((vs.set_spp b).set_sie c = (vs.set_sie c).set_spp b) ∧
    ((vs.set_ube b).set_spie c = (vs.set_spie c).set_ube b) ∧
    ((vs.set_ube b).set_sie c = (vs.set_sie c).set_ube b) ∧
    ((vs.set_spie b).set_sie c = (vs.set_sie c).set_spie b) :=
  ⟨congrArg hgatp.Hgatp.mk (set_bits_comm g.bits 44 58 60 64 y (hgatp.HgatpValues.toNat m) (by omega)),
   congrArg hgatp.Hgatp.mk (set_bits_comm g.bits 0 44 60 64 y (hgatp.HgatpValues.toNat m) (by omega)),
   congrArg hgatp.Hgatp.mk (set_bits_comm g.bits 0 44 44 58 y x (by omega)),
   congrArg hstatus.Hstatus.mk (set_bit_set_bits_comm s.bits 32 34 (hstatus.VsxlValues.toNat vx) 22 c (by omega)),
   congrArg hstatus.Hstatus.mk (set_bit_set_bits_comm s.bits 32 34 (hstatus.VsxlValues.toNat vx) 21 c (by omega)),
   congrArg hstatus.Hstatus.mk (set_bit_set_bits_comm s.bits 32 34 (hstatus.VsxlValues.toNat vx) 20 c (by omega)),
   congrArg hstatus.Hstatus.mk (set_bits_comm s.bits 12 18 32 34 y (hstatus.VsxlValues.toNat vx) (by omega)),
   congrArg hstatus.Hstatus.mk (set_bit_set_bits_comm s.bits 32 34 (hstatus.VsxlValues.toNat vx) 9 c (by omega)),
   congrArg hstatus.Hstatus.mk (set_bit_set_bits_comm s.bits 32 34 (hstatus.VsxlValues.toNat vx) 8 c (by omega)),
   congrArg hstatus.Hstatus.mk (set_bit_set_bits_comm s.bits 32 34 (hstatus.VsxlValues.toNat vx) 7 c (by omega)),
   congrArg hstatus.Hstatus.mk (set_bit_set_bits_comm s.bits 32 34 (hstatus.VsxlValues.toNat vx) 6 c (by omega)),
   congrArg hstatus.Hstatus.mk (set_bit_set_bits_comm s.bits 32 34 (hstatus.VsxlValues.toNat vx) 5 c (by omega)),
   congrArg hstatus.Hstatus.mk (set_bit_set_bit_comm s.bits 21 22 c b (by omega)),
   congrArg hstatus.Hstatus.mk (set_bit_set_bit_comm s.bits 20 22 c b (by omega)),
   congrArg hstatus.Hstatus.mk (set_bit_set_bits_comm s.bits 12 18 x 22 c (by omega)),
   congrArg hstatus.Hstatus.mk (set_bit_set_bit_comm s.bits 9 22 c b (by omega)),
   congrArg hstatus.Hstatus.mk (set_bit_set_bit_comm s.bits 8 22 c b (by omega)),
   congrArg hstatus.Hstatus.mk (set_bit_set_bit_comm s.bits 7 22 c b (by omega)),
   congrArg hstatus.Hstatus.mk (set_bit_set_bit_comm s.bits 6 22 c b (by omega)),
   congrArg hstatus.Hstatus.mk (set_bit_set_bit_comm s.bits 5 22 c b (by omega)),
   congrArg hstatus.Hstatus.mk (set_bit_set_bit_comm s.bits 20 21 c b (by omega)),
   congrArg hstatus.Hstatus.mk (set_bit_set_bits_comm s.bits 12 18 x 21 c (by omega)),
   congrArg hstatus.Hstatus.mk (set_bit_set_bit_comm s.bits 9 21 c b (by omega)),
   congrArg hstatus.Hstatus.mk (set_bit_set_bit_comm s.bits 8 21 c b (by omega)),
   congrArg hstatus.Hstatus.mk (set_bit_set_bit_comm s.bits 7 21 c b (by omega)),
   congrArg hstatus.Hstatus.mk (set_bit_set_bit_comm s.bits 6 21 c b (by omega)),
   congrArg hstatus.Hstatus.mk (set_bit_set_bit_comm s.bits 5 21 c b (by omega)),
   congrArg hstatus.Hstatus.mk (set_bit_set_bits_comm s.bits 12 18 x 20 c (by omega)),
   congrArg hstatus.Hstatus.mk (set_bit_set_bit_comm s.bits 9 20 c b (by omega)),
   congrArg hstatus.Hstatus.mk (set_bit_set_bit_comm s.bits 8 20 c b (by omega)),
   congrArg hstatus.Hstatus.mk (set_bit_set_bit_comm s.bits 7 20 c b (by omega)),
   congrArg hstatus.Hstatus.mk (set_bit_set_bit_comm s.bits 6 20 c b (by omega)),
   congrArg hstatus.Hstatus.mk (set_bit_set_bit_comm s.bits 5 20 c b (by omega)),
   congrArg hstatus.Hstatus.mk (set_bit_set_bits_comm s.bits 12 18 x 9 c (by omega)),
   congrArg hstatus.Hstatus.mk (set_bit_set_bits_comm s.bits 12 18 x 8 c (by omega)),
   congrArg hstatus.Hstatus.mk (set_bit_set_bits_comm s.bits 12 18 x 7 c (by omega)),
   congrArg hstatus.Hstatus.mk (set_bit_set_bits_comm s.bits 12 18 x 6 c (by omega)),
   congrArg hstatus.Hstatus.mk (set_bit_set_bits_comm s.bits 12 18 x 5 c (by omega)),
   congrArg hstatus.Hstatus.mk (set_bit_set_bit_comm s.bits 8 9 c b (by omega)),
   congrArg hstatus.Hstatus.mk (set_bit_set_bit_comm s.bits 7 9 c b (by omega)),
   congrArg hstatus.Hstatus.mk (set_bit_set_bit_comm s.bits 6 9 c b (by omega)),
   congrArg hstatus.Hstatus.mk (set_bit_set_bit_comm s.bits 5 9 c b (by omega)),
   congrArg hstatus.Hstatus.mk (set_bit_set_bit_comm s.bits 7 8 c b (by omega)),
   congrArg hstatus.Hstatus.mk (set_bit_set_bit_comm s.bits 6 8 c b (by omega)),
   congrArg hstatus.Hstatus.mk (set_bit_set_bit_comm s.bits 5 8 c b (by omega)),
   congrArg hstatus.Hstatus.mk (set_bit_set_bit_comm s.bits 6 7 c b (by omega)),
   congrArg hstatus.Hstatus.mk (set_bit_set_bit_comm s.bits 5 7 c b (by omega)),
   congrArg hstatus.Hstatus.mk (set_bit_set_bit_comm s.bits 5 6 c b (by omega)),
   congrArg hedeleg.Hedeleg.mk (set_bit_set_bit_comm d.bits 1 0 c b (by omega)),
   congrArg hedeleg.Hedeleg.mk (set_bit_set_bit_comm d.bits 2 0 c b (by omega)),
   congrArg hedeleg.Hedeleg.mk (set_bit_set_bit_comm d.bits 3 0 c b (by omega)),
   congrArg hedeleg.Hedeleg.mk (set_bit_set_bit_comm d.bits 4 0 c b (by omega)),
   congrArg hedeleg.Hedeleg.mk (set_bit_set_bit_comm d.bits 5 0 c b (by omega)),
   congrArg hedeleg.Hedeleg.mk (set_bit_set_bit_comm d.bits 6 0 c b (by omega)),
   congrArg hedeleg.Hedeleg.mk (set_bit_set_bit_comm d.bits 7 0 c b (by omega)),
   congrArg hedeleg.Hedeleg.mk (set_bit_set_bit_comm d.bits 8 0 c b (by omega)),
   congrArg hedeleg.Hedeleg.mk (set_bit_set_bit_comm d.bits 12 0 c b (by omega)),
   congrArg hedeleg.Hedeleg.mk (set_bit_set_bit_comm d.bits 13 0 c b (by omega)),
   congrArg hedeleg.Hedeleg.mk (set_bit_set_bit_comm d.bits 15 0 c b (by omega)),
   congrArg hedeleg.Hedeleg.mk (set_bit_set_bit_comm d.bits 2 1 c b (by omega)),
   congrArg hedeleg.Hedeleg.mk (set_bit_set_bit_comm d.bits 3 1 c b (by omega)),
   congrArg hedeleg.Hedeleg.mk (set_bit_set_bit_comm d.bits 4 1 c b (by omega)),
   congrArg hedeleg.Hedeleg.mk (set_bit_set_bit_comm d.bits 5 1 c b (by omega)),
   congrArg hedeleg.Hedeleg.mk (set_bit_set_bit_comm d.bits 6 1 c b (by omega)),
   congrArg hedeleg.Hedeleg.mk (set_bit_set_bit_comm d.bits 7 1 c b (by omega)),
   congrArg hedeleg.Hedeleg.mk (set_bit_set_bit_comm d.bits 8 1 c b (by omega)),
   congrArg hedeleg.Hedeleg.mk (set_bit_set_bit_comm d.bits 12 1 c b (by omega)),
   congrArg hedeleg.Hedeleg.mk (set_bit_set_bit_comm d.bits 13 1 c b (by omega)),
   congrArg hedeleg.Hedeleg.mk (set_bit_set_bit_comm d.bits 15 1 c b (by omega)),
   congrArg hedeleg.Hedeleg.mk (set_bit_set_bit_comm d.bits 3 2 c b (by omega)),
   congrArg hedeleg.Hedeleg.mk (set_bit_set_bit_comm d.bits 4 2 c b (by omega)),
   congrArg hedeleg.Hedeleg.mk (set_bit_set_bit_comm d.bits 5 2 c b (by omega)),
   congrArg hedeleg.Hedeleg.mk (set_bit_set_bit_comm d.bits 6 2 c b (by omega)),
   congrArg hedeleg.Hedeleg.mk (set_bit_set_bit_comm d.bits 7 2 c b (by omega)),
   congrArg hedeleg.Hedeleg.mk (set_bit_set_bit_comm d.bits 8 2 c b (by omega)),
   congrArg hedeleg.Hedeleg.mk (set_bit_set_bit_comm d.bits 12 2 c b (by omega)),
   congrArg hedeleg.Hedeleg.mk (set_bit_set_bit_comm d.bits 13 2 c b (by omega)),
   congrArg hedeleg.Hedeleg.mk (set_bit_set_bit_comm d.bits 15 2 c b (by omega)),
   congrArg hedeleg.Hedeleg.mk (set_bit_set_bit_comm d.bits 4 3 c b (by omega)),
   congrArg hedeleg.Hedeleg.mk (set_bit_set_bit_comm d.bits 5 3 c b (by omega)),
   congrArg hedeleg.Hedeleg.mk (set_bit_set_bit_comm d.bits 6 3 c b (by omega)),
   congrArg hedeleg.Hedeleg.mk (set_bit_set_bit_comm d.bits 7 3 c b (by omega)),
   congrArg hedeleg.Hedeleg.mk (set_bit_set_bit_comm d.bits 8 3 c b (by omega)),
   congrArg hedeleg.Hedeleg.mk (set_bit_set_bit_comm d.bits 12 3 c b (by omega)),
   congrArg hedeleg.Hedeleg.mk (set_bit_set_bit_comm d.bits 13 3 c b (by omega)),
   congrArg hedeleg.Hedeleg.mk (set_bit_set_bit_comm d.bits 15 3 c b (by omega)),
   congrArg hedeleg.Hedeleg.mk (set_bit_set_bit_comm d.bits 5 4 c b (by omega)),
   congrArg hedeleg.Hedeleg.mk (set_bit_set_bit_comm d.bits 6 4 c b (by omega)),
   congrArg hedeleg.Hedeleg.mk (set_bit_set_bit_comm d.bits 7 4 c b (by omega)),
   congrArg hedeleg.Hedeleg.mk (set_bit_set_bit_comm d.bits 8 4 c b (by omega)),
   congrArg hedeleg.Hedeleg.mk (set_bit_set_bit_comm d.bits 12 4 c b (by omega)),
   congrArg hedeleg.Hedeleg.mk (set_bit_set_bit_comm d.bits 13 4 c b (by omega)),
   congrArg hedeleg.Hedeleg.mk (set_bit_set_bit_comm d.bits 15 4 c b (by omega)),
   congrArg hedeleg.Hedeleg.mk (set_bit_set_bit_comm d.bits 6 5 c b (by omega)),
   congrArg hedeleg.Hedeleg.mk (set_bit_set_bit_comm d.bits 7 5 c b (by omega)),
   congrArg hedeleg.Hedeleg.mk (set_bit_set_bit_comm d.bits 8 5 c b (by omega)),
   congrArg hedeleg.Hedeleg.mk (set_bit_set_bit_comm d.bits 12 5 c b (by omega)),
   congrArg hedeleg.Hedeleg.mk (set_bit_set_bit_comm d.bits 13 5 c b (by omega)),
   congrArg hedeleg.Hedeleg.mk (set_bit_set_bit_comm d.bits 15 5 c b (by omega)),
   congrArg hedeleg.Hedeleg.mk (set_bit_set_bit_comm d.bits 7 6 c b (by omega)),
   congrArg hedeleg.Hedeleg.mk (set_bit_set_bit_comm d.bits 8 6 c b (by omega)),
   congrArg hedeleg.Hedeleg.mk (set_bit_set_bit_comm d.bits 12 6 c b (by omega)),
   congrArg hedeleg.Hedeleg.mk (set_bit_set_bit_comm d.bits 13 6 c b (by omega)),
   congrArg hedeleg.Hedeleg.mk (set_bit_set_bit_comm d.bits 15 6 c b (by omega)),
   congrArg hedeleg.Hedeleg.mk (set_bit_set_bit_comm d.bits 8 7 c b (by omega)),
   congrArg hedeleg.Hedeleg.mk (set_bit_set_bit_comm d.bits 12 7 c b (by omega)),
   congrArg hedeleg.Hedeleg.mk (set_bit_set_bit_comm d.bits 13 7 c b (by omega)),
   congrArg hedeleg.Hedeleg.mk (set_bit_set_bit_comm d.bits 15 7 c b (by omega)),
   congrArg hedeleg.Hedeleg.mk (set_bit_set_bit_comm d.bits 12 8 c b (by omega)),
   congrArg hedeleg.Hedeleg.mk (set_bit_set_bit_comm d.bits 13 8 c b (by omega)),
   congrArg hedeleg.Hedeleg.mk (set_bit_set_bit_comm d.bits 15 8 c b (by omega)),
   congrArg hedeleg.Hedeleg.mk (set_bit_set_bit_comm d.bits 13 12 c b (by omega)),
   congrArg hedeleg.Hedeleg.mk (set_bit_set_bit_comm d.bits 15 12 c b (by omega)),
   congrArg hedeleg.Hedeleg.mk (set_bit_set_bit_comm d.bits 15 13 c b (by omega)),
   congrArg vsatp.Vsatp.mk (set_bits_comm vp.bits 44 60 60 64 y (vsatp.HgatpValues.toNat vm) (by omega)),
   congrArg vsatp.Vsatp.mk (set_bits_comm vp.bits 0 44 60 64 y (vsatp.HgatpValues.toNat vm) (by omega)),
   congrArg vsatp.Vsatp.mk (set_bits_comm vp.bits 0 44 44 60 y x (by omega)),
   congrArg vsstatus.Vsstatus.mk (set_bits_comm vs.bits 32 34 60 64 (vsstatus.UxlValues.toNat u) x (by omega)),
   congrArg vsstatus.Vsstatus.mk (set_bit_set_bits_comm vs.bits 60 64 x 19 c (by omega)),
   congrArg vsstatus.Vsstatus.mk (set_bit_set_bits_comm vs.bits 60 64 x 18 c (by omega)),
   congrArg vsstatus.Vsstatus.mk (set_bits_comm vs.bits 15 17 60 64 y x (by omega)),
   congrArg vsstatus.Vsstatus.mk (set_bits_comm vs.bits 13 15 60 64 y x (by omega)),
   congrArg vsstatus.Vsstatus.mk (set_bit_set_bits_comm vs.bits 60 64 x 8 c (by omega)),
   congrArg vsstatus.Vsstatus.mk (set_bit_set_bits_comm vs.bits 60 64 x 6 c (by omega)),
   congrArg vsstatus.Vsstatus.mk (set_bit_set_bits_comm vs.bits 60 64 x 5 c (by omega)),
   congrArg vsstatus.Vsstatus.mk (set_bit_set_bits_comm vs.bits 60 64 x 1 c (by omega)),
   congrArg vsstatus.Vsstatus.mk (set_bit_set_bits_comm vs.bits 32 34 (vsstatus.UxlValues.toNat u) 19 c (by omega)),
   congrArg vsstatus.Vsstatus.mk (set_bit_set_bits_comm vs.bits 32 34 (vsstatus.UxlValues.toNat u) 18 c (by omega)),
   congrArg vsstatus.Vsstatus.mk (set_bits_comm vs.bits 15 17 32 34 y (vsstatus.UxlValues.toNat u) (by omega)),
   congrArg vsstatus.Vsstatus.mk (set_bits_comm vs.bits 13 15 32 34 y (vsstatus.UxlValues.toNat u) (by omega)),
   congrArg vsstatus.Vsstatus.mk (set_bit_set_bits_comm vs.bits 32 34 (vsstatus.UxlValues.toNat u) 8 c (by omega)),
   congrArg vsstatus.Vsstatus.mk (set_bit_set_bits_comm vs.bits 32 34 (vsstatus.UxlValues.toNat u) 6 c (by omega)),
   congrArg vsstatus.Vsstatus.mk (set_bit_set_bits_comm vs.bits 32 34 (vsstatus.UxlValues.toNat u) 5 c (by omega)),
   congrArg vsstatus.Vsstatus.mk (set_bit_set_bits_comm vs.bits 32 34 (vsstatus.UxlValues.toNat u) 1 c (by omega)),
   congrArg vsstatus.Vsstatus.mk (set_bit_set_bit_comm vs.bits 18 19 c b (by omega)),
   congrArg vsstatus.Vsstatus.mk (set_bit_set_bits_comm vs.bits 15 17 x 19 c (by omega)),
   congrArg vsstatus.Vsstatus.mk (set_bit_set_bits_comm vs.bits 13 15 x 19 c (by omega)),
   congrArg vsstatus.Vsstatus.mk (set_bit_set_bit_comm vs.bits 8 19 c b (by omega)),
   congrArg vsstatus.Vsstatus.mk (set_bit_set_bit_comm vs.bits 6 19 c b (by omega)),
   congrArg vsstatus.Vsstatus.mk (set_bit_set_bit_comm vs.bits 5 19 c b (by omega)),
   congrArg vsstatus.Vsstatus.mk (set_bit_set_bit_comm vs.bits 1 19 c b (by omega)),
   congrArg vsstatus.Vsstatus.mk (set_bit_set_bits_comm vs.bits 15 17 x 18 c (by omega)),
   congrArg vsstatus.Vsstatus.mk (set_bit_set_bits_comm vs.bits 13 15 x 18 c (by omega)),
   congrArg vsstatus.Vsstatus.mk (set_bit_set_bit_comm vs.bits 8 18 c b (by omega)),
   congrArg vsstatus.Vsstatus.mk (set_bit_set_bit_comm vs.bits 6 18 c b (by omega)),
   congrArg vsstatus.Vsstatus.mk (set_bit_set_bit_comm vs.bits 5 18 c b (by omega)),
   congrArg vsstatus.Vsstatus.mk (set_bit_set_bit_comm vs.bits 1 18 c b (by omega)),
   congrArg vsstatus.Vsstatus.mk (set_bits_comm vs.bits 13 15 15 17 y x (by omega)),
   congrArg vsstatus.Vsstatus.mk (set_bit_set_bits_comm vs.bits 15 17 x 8 c (by omega)),
   congrArg vsstatus.Vsstatus.mk (set_bit_set_bits_comm vs.bits 15 17 x 6 c (by omega)),
   congrArg vsstatus.Vsstatus.mk (set_bit_set_bits_comm vs.bits 15 17 x 5 c (by omega)),
   congrArg vsstatus.Vsstatus.mk (set_bit_set_bits_comm vs.bits 15 17 x 1 c (by omega)),
   congrArg vsstatus.Vsstatus.mk (set_bit_set_bits_comm vs.bits 13 15 x 8 c (by omega)),
   congrArg vsstatus.Vsstatus.mk (set_bit_set_bits_comm vs.bits 13 15 x 6 c (by omega)),
   congrArg vsstatus.Vsstatus.mk (set_bit_set_bits_comm vs.bits 13 15 x 5 c (by omega)),
   congrArg vsstatus.Vsstatus.mk (set_bit_set_bits_comm vs.bits 13 15 x 1 c (by omega)),
   congrArg vsstatus.Vsstatus.mk (set_bit_set_bit_comm vs.bits 6 8 c b (by omega)),
   congrArg vsstatus.Vsstatus.mk (set_bit_set_bit_comm vs.bits 5 8 c b (by omega)),
   congrArg vsstatus.Vsstatus.mk (set_bit_set_bit_comm vs.bits 1 8 c b (by omega)),
   congrArg vsstatus.Vsstatus.mk (set_bit_set_bit_comm vs.bits 5 6 c b (by omega)),
   congrArg vsstatus.Vsstatus.mk (set_bit_set_bit_comm vs.bits 1 6 c b (by omega)),
   congrArg vsstatus.Vsstatus.mk (set_bit_set_bit_comm vs.bits 1 5 c b (by omega))⟩
